import Mathlib

/-!
Verification of the salesforce-cdp-connector repository: a shallow embedding
of its authentication/token lifecycle manager, its paginated query cursors
(the legacy `salesforcecdpconnector` cursor and the Connect API cursor), its
query-result parser and its parameter substitution, together with theorems
settling the frozen claims about them.

Machine integers are modelled as `Nat`/`Int`; Python exceptions as an explicit
`PyError` sum flowing through `Except`; network I/O as a scripted server
(`Nat → response`) plus a call counter threaded through each state.
-/

/-- Python exceptions raised by the connector, as a tagged sum.
`error` is the package's `exceptions.Error`; `valueError` is the built-in
`ValueError`; `indexError` is the built-in `IndexError` raised by
`list.pop(0)` on an empty list; `exception` is a bare `Exception`. -/
inductive PyError where
  | error (msg : String)
  | valueError (msg : String)
  | indexError
  | internalError (msg : String)
  | notSupportedError (msg : String)
  | authenticationError (msg : String)
  | exception (msg : String)
  deriving DecidableEq, Repr

/-- True exactly on the `AuthenticationError` variant. -/
def PyError.isAuthenticationError : PyError → Bool
  | PyError.authenticationError _ => true
  | _ => false

/-- SQL cell values as delivered in the JSON result pages.  `datetime s`
stands for the structured value `dateutil.parser.parse(s)` built from the
string `s`; the parse itself is kept abstract since no claim depends on the
calendar arithmetic inside it. -/
inductive Value where
  | null
  | int (n : Int)
  | str (s : String)
  | datetime (iso : String)
  deriving DecidableEq, Repr

/-- One column of a cursor description.  The source's description items are
7-tuples `(name, type, None, None, None, None, None)` (query_result_parser.py,
`_get_description_item`); the five trailing fields are the constant `None` and
are omitted here. -/
structure DescriptionItem where
  name : String
  dataType : String
  deriving DecidableEq, Repr

/-- constants.py `DATA_TYPE_TIMESTAMP`. -/
def DATA_TYPE_TIMESTAMP : String := "TIMESTAMP"

/-- The per-cell action of `QueryResultParser._convert_timestamps`
(query_result_parser.py lines 41-53): a cell in a column whose description
type is `TIMESTAMP` is replaced by the parsed datetime when it is a non-empty
string (`data_row[i] is not None and isinstance(data_row[i], str) and
len(data_row[i]) > 0`); every other cell is left as it is. -/
def convertCell (dataType : String) (v : Value) : Value :=
  if dataType = DATA_TYPE_TIMESTAMP then
    match v with
    | Value.str s => if s.length > 0 then Value.datetime s else Value.str s
    | w => w
  else v

/-- `_convert_timestamps` restricted to one row, walking the row from column
index `i` on: the source iterates the description indices and updates
`data_row[i]` in place.  Cells beyond the description are untouched (the
source never reads them). -/
def convertRowFrom (description : List DescriptionItem) : Nat → List Value → List Value
  | _, [] => []
  | i, v :: vs =>
    (match description[i]? with
     | some d => convertCell d.dataType v
     | none => v) :: convertRowFrom description (i + 1) vs

/-- One row's update under `_convert_timestamps`. -/
def convertRow (description : List DescriptionItem) (row : List Value) : List Value :=
  convertRowFrom description 0 row

/-- `QueryResultParser._convert_timestamps` over the whole data list. -/
def convertTimestamps (description : List DescriptionItem) (data : List (List Value)) :
    List (List Value) :=
  data.map (convertRow description)

/-- Column metadata of the v2 wire format: a `type` string and the explicit
`placeInOrder` field (constants.py `QUERY_RESPONSE_KEY_PLACE_IN_ORDER`). -/
structure MetaInfo where
  type : String
  placeInOrder : Nat
  deriving DecidableEq, Repr

/-- `QueryResultParser._sort_metadata_by_place_in_order` (lines 84-93): the
metadata dict's items, sorted by the `placeInOrder` field.  Python's `sorted`
is a stable sort by that key; `List.insertionSort` with the non-strict key
order is the same stable sort. -/
def sortMetadataByPlaceInOrder (metadataItems : List (String × MetaInfo)) :
    List (String × MetaInfo) :=
  List.insertionSort (fun a b => a.snd.placeInOrder ≤ b.snd.placeInOrder) metadataItems

/-- `QueryResultParser._convert_metadata_list_to_description` composed with
`_convert_metadata_item_to_description_item`: each sorted item becomes the
description pair (name, type). -/
def descriptionOfMetadata (metadataItems : List (String × MetaInfo)) : List DescriptionItem :=
  (sortMetadataByPlaceInOrder metadataItems).map fun item =>
    { name := item.fst, dataType := item.snd.type }

/-- The `data` payload of one page of the Connect API response.  The source
(`connect_api/cursor.py`, `_data_to_tuples`) dispatches on the type of
`data[0]`, so the payload is homogeneous: either array-of-arrays
(positional) or array-of-maps (keyed).  A keyed row is an association list
in the dict's insertion order. -/
inductive PageData where
  | positional (rows : List (List Value))
  | keyed (rows : List (List (String × Value)))
  deriving DecidableEq, Repr

/-- `len(data)`. -/
def PageData.length : PageData → Nat
  | PageData.positional rows => rows.length
  | PageData.keyed rows => rows.length

/-- Python `row.get(key)` on a keyed row: the value under the first matching
key, and `None` (SQL null) when the key is absent. -/
def rowGet (row : List (String × Value)) (key : String) : Value :=
  match row.find? (fun p => p.fst = key) with
  | some p => p.snd
  | none => Value.null

/-- `Cursor._data_to_tuples` (connect_api/cursor.py lines 163-180).
Positional rows are used as-is (`tuple(row)`).  Keyed rows are re-projected:
when the description is present (and non-empty; Python's `if not
self.description` also treats the empty list as missing) the key order is the
description's column names, otherwise it falls back to the first row's own
keys; a missing key yields `None`. -/
def dataToTuples (description : Option (List DescriptionItem)) (data : PageData) :
    List (List Value) :=
  match data with
  | PageData.positional rows => rows
  | PageData.keyed rows =>
    match rows with
    | [] => []
    | r0 :: _ =>
      let orderedKeys : List String :=
        match description with
        | some desc => if desc.isEmpty then r0.map Prod.fst else desc.map DescriptionItem.name
        | none => r0.map Prod.fst
      rows.map fun row => orderedKeys.map fun key => rowGet row key

namespace Legacy

/-- The result of `QueryResultParser.parse_result` on one batch response, as
consumed by the legacy cursor: `data`, `description`, `has_next = not done`
and `nextBatchId` (parsed_query_result.py `QueryResult`). -/
structure BatchResult where
  data : List (List Value)
  description : List DescriptionItem
  hasNext : Bool
  nextBatchId : Option String
  deriving Repr

/-- State of `SalesforceCDPCursor` (cursor.py lines 24-33) together with the
owning connection's `closed` flag and `served`, the number of network batch
requests made so far (each `QuerySubmitter.execute` / `get_next_batch` call
is one request and consumes the next entry of the server script). -/
structure LState where
  description : Option (List DescriptionItem)
  data : Option (List (List Value))
  hasNext : Option Bool
  nextBatchId : Option String
  closed : Bool
  connClosed : Bool
  hasResult : Bool
  served : Nat
  deriving Repr

/-- `SalesforceCDPCursor._check_cursor_closed` (lines 147-151). -/
def checkClosed (s : LState) : Except PyError Unit :=
  if s.closed then Except.error (PyError.error "Attempting operation while cursor is closed")
  else if s.connClosed then
    Except.error (PyError.error "Attempting operation while connection is closed")
  else Except.ok ()

/-- The state update of one `get_next_batch` + `parse_result` round inside
`fetchall` (cursor.py lines 59-66): description, `has_next` and
`next_batch_id` are overwritten from the parsed batch and the batch's rows
are appended to `data`. -/
def applyBatchFetchall (s : LState) (r : BatchResult) : LState :=
  { s with
    served := s.served + 1
    description := some r.description
    hasNext := some r.hasNext
    nextBatchId := r.nextBatchId
    data := some ((s.data.getD []) ++ r.data) }

/-- The `while self.has_next is True` loop of `fetchall`, with explicit fuel;
`none` means the loop was still running when the fuel ran out. -/
def fetchallLoop (srv : Nat → BatchResult) : Nat → LState →
    Option (Except PyError (List (List Value) × LState))
  | 0, s =>
    if s.hasNext = some true then none
    else
      match checkClosed s with
      | Except.error e => some (Except.error e)
      | Except.ok _ => some (Except.ok (s.data.getD [], { s with hasResult := false }))
  | fuel + 1, s =>
    if s.hasNext = some true then
      match checkClosed s with
      | Except.error e => some (Except.error e)
      | Except.ok _ => fetchallLoop srv fuel (applyBatchFetchall s (srv s.served))
    else
      match checkClosed s with
      | Except.error e => some (Except.error e)
      | Except.ok _ => some (Except.ok (s.data.getD [], { s with hasResult := false }))

/-- `SalesforceCDPCursor.fetchall` (cursor.py lines 52-69). -/
def fetchall (srv : Nat → BatchResult) (fuel : Nat) (s : LState) :
    Option (Except PyError (List (List Value) × LState)) :=
  if s.hasResult then fetchallLoop srv fuel s
  else some (Except.error (PyError.error "No results available to fetch"))

/-- `SalesforceCDPCursor.fetchone` (cursor.py lines 71-93).  Note the
unguarded `self.data.pop(0)` after fetching the next batch: an empty fetched
batch raises `IndexError`. -/
def fetchone (srv : Nat → BatchResult) (s : LState) :
    Except PyError (Option (List Value) × LState) :=
  if ¬ s.hasResult then Except.error (PyError.error "No results available to fetch")
  else
    match checkClosed s with
    | Except.error e => Except.error e
    | Except.ok _ =>
      match s.data with
      | some (row :: rest) => Except.ok (some row, { s with data := some rest })
      | _ =>
        if s.hasNext = some true then
          let r := srv s.served
          let s1 : LState :=
            { s with
              served := s.served + 1
              description := some r.description
              data := some r.data
              hasNext := some r.hasNext
              nextBatchId := r.nextBatchId }
          match r.data with
          | [] => Except.error PyError.indexError
          | row :: rest => Except.ok (some row, { s1 with data := some rest })
        else Except.ok (none, { s with hasResult := false })

/-- `SalesforceCDPCursor.rollback` (cursor.py lines 119-124): literally
`pass` — it returns normally and changes nothing. -/
def cursorRollback (s : LState) : Except PyError (Unit × LState) :=
  Except.ok ((), s)

/-- `SalesforceCDPCursor.commit` (cursor.py lines 126-131): `pass`. -/
def cursorCommit (s : LState) : Except PyError (Unit × LState) :=
  Except.ok ((), s)

/-- State of `SalesforceCDPConnection` relevant to commit/rollback. -/
structure ConnState where
  closed : Bool
  deriving Repr

/-- `SalesforceCDPConnection.rollback` (connection.py lines 94-99): `pass`. -/
def connectionRollback (c : ConnState) : Except PyError (Unit × ConnState) :=
  Except.ok ((), c)

/-- `SalesforceCDPConnection.commit` (connection.py lines 87-92): `pass`. -/
def connectionCommit (c : ConnState) : Except PyError (Unit × ConnState) :=
  Except.ok ((), c)

end Legacy

namespace ConnectApi

/-- One page response of `Client.get_query_results`, as read by
`Cursor._fetch_more_data` (connect_api/cursor.py lines 182-223): the `data`
payload and the optional `returnedRows`, `totalRows` and `nextOffset`
fields.  `returnedRows`/`totalRows` are row counts (`Nat`); `nextOffset` is
compared against `0`, so it is an `Int`. -/
structure PageResponse where
  data : PageData
  returnedRows : Option Nat
  totalRows : Option Nat
  nextOffset : Option Int
  deriving Repr

/-- `returned_rows = response.get('returnedRows', len(new_data))`. -/
def PageResponse.returned (p : PageResponse) : Nat :=
  p.returnedRows.getD p.data.length

/-- State of the Connect API `Cursor` (connect_api/cursor.py lines 27-34)
plus `served`, the number of network page requests made so far; the server
is a script `Nat → PageResponse` indexed by `served`.  `rowcount = -1`
means unknown. -/
structure CState where
  queryId : Option String
  description : Option (List DescriptionItem)
  rowsBuffer : List (List Value)
  rowIndex : Nat
  nextOffset : Nat
  queryFinished : Bool
  rowcount : Int
  arraysize : Nat
  isClosed : Bool
  served : Nat
  deriving Repr

/-- `BaseCursor._check_closed` (base.py lines 94-97); the connection's own
closed flag is folded into `isClosed`, since the cursor claims only need
"closed or not". -/
def checkClosed (s : CState) : Except PyError Unit :=
  if s.isClosed then Except.error (PyError.error "Cursor is closed.") else Except.ok ()

/-- `Cursor._fetch_more_data` (connect_api/cursor.py lines 182-241), success
paths.  Already-finished cursors return `False` before anything else; a
missing query id raises `InternalError`; otherwise one network request is
made (`served` grows by one).  A page with no rows (or `returnedRows == 0`)
marks the query finished and returns `False` without consulting the
continuation signals; otherwise the rows are appended, the offset advanced,
and the finished flag is inferred from `nextOffset`, `totalRows` and the
short-page test, in that order. -/
def fetchMoreData (srv : Nat → PageResponse) (s : CState) : Except PyError (Bool × CState) :=
  if s.queryFinished then Except.ok (false, s)
  else if s.queryId = none then
    Except.error (PyError.internalError "Cannot fetch data, query ID is missing.")
  else
    let resp := srv s.served
    let s0 : CState := { s with served := s.served + 1 }
    if resp.data.length = 0 ∨ resp.returned = 0 then
      Except.ok (false,
        { s0 with
          queryFinished := true
          rowcount := (s0.rowIndex : Int) + (s0.rowsBuffer.length : Int) })
    else
      let s1 : CState :=
        { s0 with
          rowsBuffer := s0.rowsBuffer ++ dataToTuples s0.description resp.data
          nextOffset := s0.nextOffset + resp.returned }
      let finished : Bool :=
        match resp.nextOffset with
        | none => true
        | some no =>
          if no < 0 then true
          else
            match resp.totalRows with
            | some total =>
              if total ≤ s1.nextOffset then true
              else decide (resp.returned < s1.arraysize)
            | none => decide (resp.returned < s1.arraysize)
      if finished then
        Except.ok (true,
          { s1 with
            queryFinished := true
            rowcount := (s1.rowIndex : Int) + (s1.rowsBuffer.length : Int) })
      else Except.ok (true, s1)

/-- `Cursor.fetchone` (connect_api/cursor.py lines 243-265). -/
def fetchone (srv : Nat → PageResponse) (s : CState) :
    Except PyError (Option (List Value) × CState) :=
  match checkClosed s with
  | Except.error e => Except.error e
  | Except.ok _ =>
    match s.rowsBuffer[s.rowIndex]? with
    | some row => Except.ok (some row, { s with rowIndex := s.rowIndex + 1 })
    | none =>
      if ¬ s.queryFinished then
        match fetchMoreData srv s with
        | Except.error e => Except.error e
        | Except.ok (true, s1) =>
          match s1.rowsBuffer[s1.rowIndex]? with
          | some row => Except.ok (some row, { s1 with rowIndex := s1.rowIndex + 1 })
          | none => Except.ok (none, { s1 with queryFinished := true })
        | Except.ok (false, s1) => Except.ok (none, s1)
      else Except.ok (none, s)

/-- The `while not self._query_finished` loop of `Cursor.fetchall`
(connect_api/cursor.py lines 305-309), with explicit fuel; `none` means the
loop was still running when the fuel ran out. -/
def fetchallLoop (srv : Nat → PageResponse) :
    Nat → CState → List (List Value) →
    Option (Except PyError (List (List Value) × CState))
  | 0, s, acc => if s.queryFinished then some (Except.ok (acc, s)) else none
  | fuel + 1, s, acc =>
    if s.queryFinished then some (Except.ok (acc, s))
    else
      match fetchMoreData srv s with
      | Except.error e => some (Except.error e)
      | Except.ok (false, s1) => some (Except.ok (acc, s1))
      | Except.ok (true, s1) =>
        fetchallLoop srv fuel { s1 with rowIndex := s1.rowsBuffer.length }
          (acc ++ s1.rowsBuffer.drop s1.rowIndex)

/-- `Cursor.fetchall` (connect_api/cursor.py lines 295-311). -/
def fetchall (srv : Nat → PageResponse) (fuel : Nat) (s : CState) :
    Option (Except PyError (List (List Value) × CState)) :=
  if s.queryId = none then
    some (Except.error
      (PyError.internalError "Cannot fetch data, query ID is missing. Call execute() first."))
  else
    match checkClosed s with
    | Except.error e => some (Except.error e)
    | Except.ok _ =>
      fetchallLoop srv fuel { s with rowIndex := s.rowsBuffer.length }
        (s.rowsBuffer.drop s.rowIndex)

/-- One iteration of the `while len(results) < fetch_size` loop of
`Cursor.fetchmany` (connect_api/cursor.py lines 275-291), with explicit
fuel; `none` means the loop was still running when the fuel ran out. -/
def fetchmanyLoop (srv : Nat → PageResponse) (fetchSize : Nat) :
    Nat → CState → List (List Value) →
    Option (Except PyError (List (List Value) × CState))
  | 0, s, acc => if fetchSize ≤ acc.length then some (Except.ok (acc, s)) else none
  | fuel + 1, s, acc =>
    if fetchSize ≤ acc.length then some (Except.ok (acc, s))
    else
      let availableInBuffer := s.rowsBuffer.length - s.rowIndex
      let needed := fetchSize - acc.length
      let take := min availableInBuffer needed
      let acc1 := acc ++ (s.rowsBuffer.drop s.rowIndex).take take
      let s1 : CState := { s with rowIndex := s.rowIndex + take }
      if acc1.length < fetchSize ∧ ¬ s1.queryFinished then
        match fetchMoreData srv s1 with
        | Except.error e => some (Except.error e)
        | Except.ok (false, s2) => some (Except.ok (acc1, s2))
        | Except.ok (true, s2) => fetchmanyLoop srv fetchSize fuel s2 acc1
      else some (Except.ok (acc1, s1))

/-- `Cursor.fetchmany` (connect_api/cursor.py lines 267-293). -/
def fetchmany (srv : Nat → PageResponse) (fuel : Nat) (size : Option Nat) (s : CState) :
    Option (Except PyError (List (List Value) × CState)) :=
  match checkClosed s with
  | Except.error e => some (Except.error e)
  | Except.ok _ =>
    let fetchSize := size.getD s.arraysize
    if fetchSize = 0 then some (Except.ok ([], s))
    else fetchmanyLoop srv fetchSize fuel s []

/-- State of the Connect API `Connection` relevant to commit/rollback
(connect_api/connection.py). -/
structure ConnState where
  closed : Bool
  deriving Repr

/-- `Connection.rollback` (connect_api/connection.py lines 39-44):
`_check_closed`, then always `NotSupportedError`. -/
def connectionRollback (c : ConnState) : Except PyError (Unit × ConnState) :=
  if c.closed then Except.error (PyError.error "Connection is closed.")
  else Except.error (PyError.notSupportedError "Salesforce CDP does not support rollback.")

/-- `Connection.commit` (connect_api/connection.py lines 32-37):
`_check_closed`, then a no-op. -/
def connectionCommit (c : ConnState) : Except PyError (Unit × ConnState) :=
  if c.closed then Except.error (PyError.error "Connection is closed.")
  else Except.ok ((), c)

/-- `Cursor.callproc` (connect_api/cursor.py lines 339-342): `_check_closed`,
then always `NotSupportedError`. -/
def callproc (s : CState) : Except PyError (Unit × CState) :=
  match checkClosed s with
  | Except.error e => Except.error e
  | Except.ok _ =>
    Except.error (PyError.notSupportedError "Stored procedures not supported by Salesforce CDP.")

end ConnectApi

namespace Params

/-- A Python value passed as a query parameter (cursor.py lines 153-191).
`float` parameters behave exactly like `int` ones in `_is_numeric` and are
not modelled separately. -/
inductive PyParam where
  | none
  | int (n : Int)
  | str (s : String)
  | list (elems : List PyParam)
  deriving Repr

mutual

/-- Python `repr` as used by `str(list)`.  The escaping `repr` applies inside
string elements is not modelled; no theorem exercises it. -/
def pyRepr : PyParam → String
  | PyParam.none => "None"
  | PyParam.int n => toString n
  | PyParam.str s => "'" ++ s ++ "'"
  | PyParam.list l => "[" ++ ", ".intercalate (pyReprList l) ++ "]"

/-- `repr` of each element of a list. -/
def pyReprList : List PyParam → List String
  | [] => []
  | p :: ps => pyRepr p :: pyReprList ps

end

/-- Python `str` of a parameter, as applied by `_replace_next_param` to
non-numeric, non-string parameters. -/
def pyStr : PyParam → String
  | PyParam.none => "None"
  | PyParam.int n => toString n
  | PyParam.str s => s
  | PyParam.list l => "[" ++ ", ".intercalate (pyReprList l) ++ "]"

/-- `SalesforceCDPCursor._is_numeric` (cursor.py lines 188-190). -/
def isNumeric : PyParam → Bool
  | PyParam.int _ => true
  | _ => false

/-- `SalesforceCDPCursor._is_iterable` (cursor.py lines 180-186): lists and
strings are iterable; `None` and numbers are not. -/
def isIterable : PyParam → Bool
  | PyParam.list _ => true
  | PyParam.str _ => true
  | _ => false

/-- Python `len(params)`, defined on the iterable parameters. -/
def pyLen : PyParam → Option Nat
  | PyParam.list l => some l.length
  | PyParam.str s => some s.length
  | _ => Option.none

/-- Iterating a Python iterable: a list yields its elements, a string yields
its characters as one-character strings. -/
def iterElems : PyParam → List PyParam
  | PyParam.list l => l
  | PyParam.str s => s.toList.map fun c => PyParam.str (String.mk [c])
  | _ => []

/-- `SalesforceCDPCursor._TRANSLATION_TABLE` (cursor.py lines 19-22), as the
per-character expansion applied by `str.translate`: backslash doubles,
newline becomes backslash-backslash-n, carriage return becomes
backslash-backslash-r, and a single quote gains a backslash. -/
def escapeChar (c : Char) : List Char :=
  if c = '\\' then ['\\', '\\']
  else if c = '\n' then ['\\', '\\', 'n']
  else if c = '\r' then ['\\', '\\', 'r']
  else if c = '\'' then ['\\', '\'']
  else [c]

/-- `param.translate(self._TRANSLATION_TABLE)`. -/
def translate (s : String) : List Char :=
  (s.toList.map escapeChar).flatten

/-- Python `query.replace('?', repl, 1)`: replace the first `'?'` only. -/
def replaceFirstQ (repl : List Char) : List Char → List Char
  | [] => []
  | c :: cs => if c = '?' then repl ++ cs else c :: replaceFirstQ repl cs

/-- The literal text substituted for one `'?'` by `_replace_next_param`
(cursor.py lines 168-178): `None` becomes the unquoted `null`, a numeric
parameter its unquoted digits, and anything else is stringified, escaped and
wrapped in single quotes. -/
def renderParam : PyParam → List Char
  | PyParam.none => "null".toList
  | PyParam.int n => (toString n).toList
  | p => ('\'' :: translate (pyStr p)) ++ ['\'']

/-- `SalesforceCDPCursor._replace_next_param`: the rendered literal replaces
the first `'?'` of the current query text. -/
def replaceNextParam (query : List Char) (p : PyParam) : List Char :=
  replaceFirstQ (renderParam p) query

/-- Positional parameter binding as the spec words it (spec model, not
source): the i-th `'?'` placeholder of the original query text receives the
rendered literal of the i-th parameter. -/
def substPositionalSpec : List Char → List PyParam → List Char
  | [], _ => []
  | c :: cs, ps =>
    if c = '?' then
      match ps with
      | p :: rest => renderParam p ++ substPositionalSpec cs rest
      | [] => c :: substPositionalSpec cs []
    else c :: substPositionalSpec cs ps

/-- `SalesforceCDPCursor._resolve_query_with_params` (cursor.py lines
153-166).  The placeholder count is the number of `'?'` in the query text;
an iterable whose length matches it is substituted element by element; with
exactly one placeholder any non-`None` params object is substituted whole;
otherwise a bare `Exception` is raised. -/
def resolveQueryWithParams (query : List Char) (params : Option PyParam) :
    Except PyError (List Char) :=
  let cnt := query.count '?'
  match params with
  | Option.none =>
    if cnt = 0 then Except.ok query
    else Except.error (PyError.exception "Parameter count not matching")
  | Option.some p =>
    if isIterable p ∧ pyLen p = some cnt then
      Except.ok ((iterElems p).foldl replaceNextParam query)
    else if cnt = 1 then Except.ok (replaceNextParam query p)
    else Except.error (PyError.exception "Parameter count not matching")

/-- `SalesforceCDPCursor.execute` up to the query submission (cursor.py lines
35-44): after the closed check, the query is resolved against the params and
only then is `QuerySubmitter.execute` called — so `submitted` is `true` only
when resolution succeeded. -/
def executeSubmits (closed connClosed : Bool) (query : List Char) (params : Option PyParam) :
    Except PyError (List Char × Bool) :=
  if closed then Except.error (PyError.error "Attempting operation while cursor is closed")
  else if connClosed then
    Except.error (PyError.error "Attempting operation while connection is closed")
  else
    match resolveQueryWithParams query params with
    | Except.error e => Except.error e
    | Except.ok q => Except.ok (q, true)

end Params

namespace Auth

/-- constants.py line 48. -/
def MAX_RETRY_COUNT : Nat := 3
/-- constants.py line 49. -/
def RETRY_DELAY_MIN_SECONDS : Nat := 0
/-- constants.py line 50. -/
def RETRY_DELAY_MAX_SECONDS : Nat := 5

/-- State of `AuthenticationHelper` (authentication_helper.py lines 46-52):
the cached exchange token, instance url and expiry time, plus `served`, the
number of authentication flow executions performed so far.  One flow
execution is one run of the grant-specific branch of `_get_token` (lines
83-102) — the unit in which the spec counts authentication network calls;
each comprises one to three HTTP requests, all of which happen or none. -/
structure AuthState where
  exchangeToken : Option String
  instanceUrl : Option String
  tokenExpiryTime : Option Nat
  served : Nat
  deriving DecidableEq, Repr

/-- `AuthenticationHelper._is_token_valid` (lines 106-115): both the expiry
time and the token must be set, and the current time must be strictly before
the expiry. -/
def isTokenValid (s : AuthState) (now : Nat) : Bool :=
  match s.tokenExpiryTime, s.exchangeToken with
  | some expiry, some _ => decide (now < expiry)
  | _, _ => false

/-- The `(self.exchange_token, self.instance_url)` pair, as returned for a
cache hit. -/
def cachedPair (s : AuthState) : Option String × Option String :=
  (s.exchangeToken, s.instanceUrl)

/-- Result of one execution of the grant-specific authentication flow:
either a token, an instance url and an `expires_in` (the successful
`_exchange_token`, lines 127-149), or an exception. -/
inductive FlowResult where
  | success (token instanceUrl : String) (expiresIn : Nat)
  | failure (e : PyError)
  deriving Repr

/-- `AuthenticationHelper._get_token` (lines 72-104) for a single caller:
under the lock, re-check validity and return the cached pair on a hit;
otherwise run the grant-specific flow (scripted by `flows`, consuming one
flow execution).  On success `_exchange_token` stores the token, the expiry
`current_time + expires_in` and the instance url before returning; a failure
raises without touching the cached fields. -/
def lockedGetToken (flows : Nat → FlowResult) (now : Nat) (s : AuthState) :
    Except PyError (Option String × Option String) × AuthState :=
  if isTokenValid s now then (Except.ok (cachedPair s), s)
  else
    match flows s.served with
    | FlowResult.success t u expiresIn =>
      (Except.ok (some t, some u),
        { exchangeToken := some t
          instanceUrl := some u
          tokenExpiryTime := some (now + expiresIn)
          served := s.served + 1 })
    | FlowResult.failure e => (Except.error e, { s with served := s.served + 1 })

/-- Outcome of `AuthenticationHelper.get_token`: a returned pair, a raised
exception, or the implicit `None` returned when the retry loop completes
without returning or raising. -/
inductive GetTokenResult where
  | ok (pair : Option String × Option String)
  | raised (e : PyError)
  | pyNone
  deriving DecidableEq, Repr

/-- The `for i in range(MAX_RETRY_COUNT)` loop of `get_token` (lines 63-70):
each attempt calls `_get_token`; only a `ValueError` is caught, and it is
re-raised unchanged when `i + 1 == self.connection.max_retries`; otherwise
the loop sleeps `random.randint(RETRY_DELAY_MIN_SECONDS,
RETRY_DELAY_MAX_SECONDS)` seconds (the draw for attempt `i` is scripted as
`delays i`, recorded in the returned sleep list) and tries again.  Falling
off the loop returns Python `None`. -/
def getTokenLoop (flows : Nat → FlowResult) (delays : Nat → Nat) (now maxRetries : Nat) :
    Nat → Nat → AuthState → GetTokenResult × AuthState × List Nat
  | _, 0, s => (GetTokenResult.pyNone, s, [])
  | i, remaining + 1, s =>
    match lockedGetToken flows now s with
    | (Except.ok pair, s1) => (GetTokenResult.ok pair, s1, [])
    | (Except.error e, s1) =>
      match e with
      | PyError.valueError msg =>
        if i + 1 = maxRetries then (GetTokenResult.raised (PyError.valueError msg), s1, [])
        else
          let d := delays i
          let r := getTokenLoop flows delays now maxRetries (i + 1) remaining s1
          (r.1, r.2.1, d :: r.2.2)
      | _ => (GetTokenResult.raised e, s1, [])

/-- `AuthenticationHelper.get_token` (lines 54-70): an unlocked validity
check returning the cached pair on a hit, then the bounded retry loop. -/
def getToken (flows : Nat → FlowResult) (delays : Nat → Nat) (now maxRetries : Nat)
    (s : AuthState) : GetTokenResult × AuthState × List Nat :=
  if isTokenValid s now then (GetTokenResult.ok (cachedPair s), s, [])
  else getTokenLoop flows delays now maxRetries 0 MAX_RETRY_COUNT s

end Auth

namespace AuthConc

/-- Program counter of one thread running `AuthenticationHelper.get_token`
(authentication_helper.py lines 54-104).  `start`: about to run the unlocked
validity check (line 61); `waiting`: check failed, about to call `_get_token`
and block on `self.lock.acquire()` (line 80); `locked`: holds the lock, about
to re-run `_is_token_valid` (line 81); `refreshing`: re-check failed, about
to run the grant-specific flow and release the lock; `done tok`: returned
with token `tok`. -/
inductive TPc where
  | start
  | waiting
  | locked
  | refreshing
  | done (tok : String)
  deriving DecidableEq, Repr

/-- True exactly on `done`. -/
def TPc.isDone : TPc → Bool
  | TPc.done _ => true
  | _ => false

/-- True on the two phases during which the thread holds the lock. -/
def TPc.holdsLock : TPc → Bool
  | TPc.locked => true
  | TPc.refreshing => true
  | _ => false

/-- Shared state of one `AuthenticationHelper` among concurrent callers:
the cached session fields, the lock (as its owning thread index, `none` when
free — `threading.Lock` itself has no owner, but each acquire/release pair
here is by one caller) and the number of authentication flow executions. -/
structure Config where
  token : Option String
  expiry : Option Nat
  owner : Option Nat
  netCount : Nat
  th : List TPc
  deriving Repr

/-- `_is_token_valid` over a (token, expiry) pair of session fields. -/
def sessionValid (token : Option String) (expiry : Option Nat) (now : Nat) : Bool :=
  match expiry, token with
  | some e, some _ => decide (now < e)
  | _, _ => false

/-- `_is_token_valid` over the shared session fields. -/
def validAt (c : Config) (now : Nat) : Bool :=
  sessionValid c.token c.expiry now

/-- Interleaving semantics of concurrent `get_token` callers, at fixed
current time `now`, with the (successful) grant flow producing `newTok` with
time-to-live `ttl`.  The refresh step performs the flow and the release
together: the flow touches the shared session only while the lock is held,
so no other thread can observe an intermediate state of it. -/
inductive Step (now : Nat) (newTok : String) (ttl : Nat) : Config → Config → Prop
  | outerHit (c : Config) (i : Nat) (tok : String) :
      c.th[i]? = some TPc.start → validAt c now = true → c.token = some tok →
      Step now newTok ttl c { c with th := c.th.set i (TPc.done tok) }
  | outerMiss (c : Config) (i : Nat) :
      c.th[i]? = some TPc.start → validAt c now = false →
      Step now newTok ttl c { c with th := c.th.set i TPc.waiting }
  | acquire (c : Config) (i : Nat) :
      c.th[i]? = some TPc.waiting → c.owner = none →
      Step now newTok ttl c { c with owner := some i, th := c.th.set i TPc.locked }
  | innerHit (c : Config) (i : Nat) (tok : String) :
      c.th[i]? = some TPc.locked → validAt c now = true → c.token = some tok →
      Step now newTok ttl c { c with owner := none, th := c.th.set i (TPc.done tok) }
  | innerMiss (c : Config) (i : Nat) :
      c.th[i]? = some TPc.locked → validAt c now = false →
      Step now newTok ttl c { c with th := c.th.set i TPc.refreshing }
  | refresh (c : Config) (i : Nat) :
      c.th[i]? = some TPc.refreshing →
      Step now newTok ttl c
        { token := some newTok
          expiry := some (now + ttl)
          owner := none
          netCount := c.netCount + 1
          th := c.th.set i (TPc.done newTok) }

/-- Zero or more interleaved steps. -/
def Reaches (now : Nat) (newTok : String) (ttl : Nat) : Config → Config → Prop :=
  Relation.ReflTransGen (Step now newTok ttl)

/-- The initial configuration: `n` callers about to enter `get_token`, lock
free, no network call yet, and the given cached session fields. -/
def initConfig (token : Option String) (expiry : Option Nat) (n : Nat) : Config :=
  { token := token
    expiry := expiry
    owner := none
    netCount := 0
    th := List.replicate n TPc.start }

end AuthConc

namespace ConnectApi

/-- A page on which `_fetch_more_data`'s finished-inference keeps the query
running: rows present, no explicit `returnedRows`/`totalRows` fields, a
non-negative `nextOffset`, and at least `arraysize` rows (so the short-page
test fails). -/
def pageContinues (arraysize : Nat) (p : PageResponse) : Prop :=
  p.data.length ≠ 0 ∧ p.returnedRows = none ∧ p.totalRows = none ∧
    0 ≤ p.nextOffset.getD (-1) ∧ arraysize ≤ p.data.length

instance (arraysize : Nat) (p : PageResponse) : Decidable (pageContinues arraysize p) := by
  unfold pageContinues
  exact inferInstance

end ConnectApi

namespace AuthConc

/-- Invariant of the concurrent `get_token` system started from an invalid
session with `n` callers: the lock owner really holds the lock, and the
system is either still before the single refresh (no network call, session
unchanged, nobody done) or after it (exactly one network call, the refreshed
session in place, nobody refreshing any more, and every finished caller got
the refreshed token). -/
def Inv (now : Nat) (newTok : String) (ttl : Nat) (initTok : Option String)
    (initExp : Option Nat) (n : Nat) (c : Config) : Prop :=
  c.th.length = n ∧
  (∀ (i : Nat) (pc : TPc), c.th[i]? = some pc → pc.holdsLock = true → c.owner = some i) ∧
  ((c.netCount = 0 ∧ c.token = initTok ∧ c.expiry = initExp ∧
      (∀ (i : Nat) (pc : TPc), c.th[i]? = some pc → pc.isDone = false)) ∨
   (c.netCount = 1 ∧ c.token = some newTok ∧ c.expiry = some (now + ttl) ∧
      (∀ i : Nat, c.th[i]? ≠ some TPc.refreshing) ∧
      (∀ (i : Nat) (tok : String), c.th[i]? = some (TPc.done tok) → tok = newTok)))

end AuthConc

section HelperLemmas

/-- `convertRowFrom` keeps the row length. -/
theorem convertRowFrom_length (description : List DescriptionItem) :
    ∀ (i : Nat) (row : List Value), (convertRowFrom description i row).length = row.length := by
  intro i row
  induction row generalizing i with
  | nil => rfl
  | cons v vs ih => simp [convertRowFrom, ih]

/-- Cell-level description of `convertRowFrom`. -/
theorem convertRowFrom_getElem (description : List DescriptionItem) :
    ∀ (i c : Nat) (row : List Value),
      (convertRowFrom description i row)[c]? =
        (row[c]?).map fun v =>
          match description[i + c]? with
          | some d => convertCell d.dataType v
          | none => v := by
  intro i c row
  induction row generalizing i c with
  | nil => simp [convertRowFrom]
  | cons v vs ih =>
    cases c with
    | zero => simp [convertRowFrom]
    | succ c =>
      have h := ih (i + 1) c
      simp only [convertRowFrom, List.getElem?_cons_succ, h, Nat.add_assoc, Nat.add_comm 1 c]

/-- `dataToTuples` yields one tuple per payload row. -/
theorem dataToTuples_length (description : Option (List DescriptionItem)) (data : PageData) :
    (dataToTuples description data).length = data.length := by
  cases data with
  | positional rows => rfl
  | keyed rows => cases rows <;> simp [dataToTuples, PageData.length]

end HelperLemmas

/-- C8, counterexample: in a TIMESTAMP column, the parser leaves a non-string
cell (`5`) and an empty-string cell (`""`) unchanged — neither becomes SQL
null, contrary to the claim that such cells "become null". -/
theorem claim8_counterexample :
    convertTimestamps [{ name := "c", dataType := "TIMESTAMP" }] [[Value.int 5], [Value.str ""]]
        = [[Value.int 5], [Value.str ""]] ∧
    Value.int 5 ≠ Value.null ∧ Value.str "" ≠ Value.null := by
  exact ⟨by decide, by decide, by decide⟩

/-- C8 (amended): at parse time, every cell of a TIMESTAMP-typed column that
is a non-empty string is converted to a structured datetime value; every
non-string or empty cell of such a column is left unchanged (in particular a
null cell stays null) rather than raising; cells of non-TIMESTAMP columns
are never modified. -/
theorem claim8_timestamp_conversion (description : List DescriptionItem)
    (data : List (List Value)) :
    (convertTimestamps description data).length = data.length ∧
    ∀ (r : Nat) (row : List Value), data[r]? = some row →
      ∃ row2 : List Value, (convertTimestamps description data)[r]? = some row2 ∧
        row2.length = row.length ∧
        (∀ (c : Nat) (d : DescriptionItem) (s : String), description[c]? = some d →
          d.dataType = DATA_TYPE_TIMESTAMP → row[c]? = some (Value.str s) → s ≠ "" →
          row2[c]? = some (Value.datetime s)) ∧
        (∀ (c : Nat) (d : DescriptionItem) (v : Value), description[c]? = some d →
          d.dataType = DATA_TYPE_TIMESTAMP → row[c]? = some v →
          (∀ s : String, v = Value.str s → s = "") → row2[c]? = some v) ∧
        (∀ (c : Nat) (d : DescriptionItem) (v : Value), description[c]? = some d →
          d.dataType ≠ DATA_TYPE_TIMESTAMP → row[c]? = some v → row2[c]? = some v) ∧
        (∀ (c : Nat) (v : Value), description[c]? = none → row[c]? = some v →
          row2[c]? = some v) := by
  constructor
  · simp [convertTimestamps]
  · intro r row hr
    refine ⟨convertRow description row, ?_, ?_, ?_, ?_, ?_, ?_⟩
    · simp [convertTimestamps, List.getElem?_map, hr]
    · exact convertRowFrom_length description 0 row
    · intro c d s hd hts hv hs
      have h := convertRowFrom_getElem description 0 c row
      rw [Nat.zero_add] at h
      rw [convertRow, h, hv, hd]
      have hlen : 0 < s.length := by
        cases s with
        | mk l =>
          cases l with
          | nil => exact absurd rfl hs
          | cons a as => simp [String.length]
      simp [convertCell, hts, hlen]
    · intro c d v hd hts hv hne
      have h := convertRowFrom_getElem description 0 c row
      rw [Nat.zero_add] at h
      rw [convertRow, h, hv, hd]
      cases v with
      | str s =>
        have : s = "" := hne s rfl
        subst this
        simp [convertCell]
      | null => simp [convertCell, hts]
      | int n => simp [convertCell, hts]
      | datetime iso => simp [convertCell, hts]
    · intro c d v hd hts hv
      have h := convertRowFrom_getElem description 0 c row
      rw [Nat.zero_add] at h
      rw [convertRow, h, hv, hd]
      simp [convertCell, hts]
    · intro c v hd hv
      have h := convertRowFrom_getElem description 0 c row
      rw [Nat.zero_add] at h
      rw [convertRow, h, hv, hd]
      simp

/-- Witness for C8: a concrete page with a TIMESTAMP column and a DECIMAL
column — the non-empty timestamp string is parsed, the numeric cell is
untouched. -/
theorem claim8_witness :
    ∃ row2 : List Value,
      (convertTimestamps [{ name := "ts", dataType := "TIMESTAMP" },
          { name := "n", dataType := "DECIMAL" }]
        [[Value.str "2022-01-01T00:00:00Z", Value.int 7]])[0]? = some row2 ∧
      row2[0]? = some (Value.datetime "2022-01-01T00:00:00Z") ∧
      row2[1]? = some (Value.int 7) := by
  have h := claim8_timestamp_conversion
    [{ name := "ts", dataType := "TIMESTAMP" }, { name := "n", dataType := "DECIMAL" }]
    [[Value.str "2022-01-01T00:00:00Z", Value.int 7]]
  obtain ⟨row2, hrow2, _, hts, _, hother, _⟩ :=
    h.2 0 [Value.str "2022-01-01T00:00:00Z", Value.int 7] rfl
  exact ⟨row2, hrow2,
    hts 0 { name := "ts", dataType := "TIMESTAMP" } "2022-01-01T00:00:00Z" rfl rfl rfl
      (by decide),
    hother 1 { name := "n", dataType := "DECIMAL" } (Value.int 7) rfl (by decide) rfl⟩

/-- C6 (confirmed): keyed (array-of-maps) page payloads are re-projected
into the established column order — the description's names, in order — with
missing keys becoming SQL null; the scenario row mapping col_b to 2 and
col_a to 1 under order [col_a, col_b] materializes as (1, 2); positional
payloads are used as-is; and the established order itself comes from the
metadata sorted by the explicit placeInOrder field, not payload iteration
order. -/
theorem claim6_keyed_projection :
    (∀ (desc : List DescriptionItem) (rows : List (List (String × Value))),
      desc ≠ [] →
      dataToTuples (some desc) (PageData.keyed rows) =
        rows.map fun row => desc.map fun d => rowGet row d.name) ∧
    (∀ (row : List (String × Value)) (key : String),
      (∀ p ∈ row, p.fst ≠ key) → rowGet row key = Value.null) ∧
    (dataToTuples
        (some [{ name := "col_a", dataType := "INTEGER" },
               { name := "col_b", dataType := "INTEGER" }])
        (PageData.keyed [[("col_b", Value.int 2), ("col_a", Value.int 1)]]) =
      [[Value.int 1, Value.int 2]]) ∧
    (∀ (d : Option (List DescriptionItem)) (rows : List (List Value)),
      dataToTuples d (PageData.positional rows) = rows) ∧
    (∀ md : List (String × MetaInfo),
      List.Sorted (fun a b => a.snd.placeInOrder ≤ b.snd.placeInOrder)
        (sortMetadataByPlaceInOrder md) ∧
      List.Perm (sortMetadataByPlaceInOrder md) md) ∧
    (descriptionOfMetadata
        [("col_b", { type := "t", placeInOrder := 1 }),
         ("col_a", { type := "t", placeInOrder := 0 })] =
      [{ name := "col_a", dataType := "t" }, { name := "col_b", dataType := "t" }]) := by
  refine ⟨?_, ?_, by decide, fun d rows => rfl, ?_, by decide⟩
  · intro desc rows hne
    cases rows with
    | nil => rfl
    | cons r0 rest =>
      have hne2 : desc.isEmpty = false := by
        cases desc with
        | nil => exact absurd rfl hne
        | cons a as => rfl
      simp [dataToTuples, hne2, List.map_map, Function.comp]
  · intro row key hmiss
    have : row.find? (fun p => p.fst = key) = none := by
      rw [List.find?_eq_none]
      intro p hp
      simp [hmiss p hp]
    simp [rowGet, this]
  · intro md
    haveI ht : IsTotal (String × MetaInfo)
        (fun a b => a.snd.placeInOrder ≤ b.snd.placeInOrder) :=
      ⟨fun a b => Nat.le_total _ _⟩
    haveI htr : IsTrans (String × MetaInfo)
        (fun a b => a.snd.placeInOrder ≤ b.snd.placeInOrder) :=
      ⟨fun a b c hab hbc => Nat.le_trans hab hbc⟩
    exact ⟨List.sorted_insertionSort _ md, List.perm_insertionSort _ md⟩

/-- Witness for C6: a keyed row missing the col_a key re-projects under the
established order [col_a, col_b] to (null, 2). -/
theorem claim6_witness :
    dataToTuples
        (some [{ name := "col_a", dataType := "INTEGER" },
               { name := "col_b", dataType := "INTEGER" }])
        (PageData.keyed [[("col_b", Value.int 2)]]) =
      [[Value.null, Value.int 2]] := by
  have h := claim6_keyed_projection
  rw [h.1 [{ name := "col_a", dataType := "INTEGER" }, { name := "col_b", dataType := "INTEGER" }]
      [[("col_b", Value.int 2)]] (by decide)]
  have hnull : rowGet [("col_b", Value.int 2)] "col_a" = Value.null :=
    h.2.1 [("col_b", Value.int 2)] "col_a" (by decide)
  simp [hnull]
  decide

/-- C9, counterexample: in the legacy driver, `rollback()` on an open
connection and on an open cursor with results pending returns normally and
changes nothing — it silently succeeds as a no-op instead of raising. -/
theorem claim9_counterexample :
    Legacy.connectionRollback { closed := false } = Except.ok ((), { closed := false }) ∧
    Legacy.cursorRollback
        { description := none, data := some [[Value.int 1]], hasNext := some false,
          nextBatchId := none, closed := false, connClosed := false,
          hasResult := true, served := 0 } =
      Except.ok ((),
        { description := none, data := some [[Value.int 1]], hasNext := some false,
          nextBatchId := none, closed := false, connClosed := false,
          hasResult := true, served := 0 }) := by
  exact ⟨rfl, rfl⟩

/-- C9 (amended): in the Connect API variant, `rollback()` and `callproc()`
always raise (NotSupportedError when open, the closed-connection Error when
closed — they never return ok), and `commit()` on an open connection
succeeds as a no-op leaving the state unchanged; in the legacy variant,
`rollback()` and `commit()` on both the cursor and the connection silently
succeed as no-ops. -/
theorem claim9_unsupported_ops :
    (∀ c : ConnectApi.ConnState, c.closed = false →
      ConnectApi.connectionRollback c =
        Except.error (PyError.notSupportedError "Salesforce CDP does not support rollback.")) ∧
    (∀ (c : ConnectApi.ConnState) (r : Unit × ConnectApi.ConnState),
      ConnectApi.connectionRollback c ≠ Except.ok r) ∧
    (∀ s : ConnectApi.CState, s.isClosed = false →
      ConnectApi.callproc s =
        Except.error
          (PyError.notSupportedError "Stored procedures not supported by Salesforce CDP.")) ∧
    (∀ (s : ConnectApi.CState) (r : Unit × ConnectApi.CState),
      ConnectApi.callproc s ≠ Except.ok r) ∧
    (∀ c : ConnectApi.ConnState, c.closed = false →
      ConnectApi.connectionCommit c = Except.ok ((), c)) ∧
    (∀ s : Legacy.LState, Legacy.cursorRollback s = Except.ok ((), s)) ∧
    (∀ s : Legacy.LState, Legacy.cursorCommit s = Except.ok ((), s)) ∧
    (∀ c : Legacy.ConnState, Legacy.connectionRollback c = Except.ok ((), c)) ∧
    (∀ c : Legacy.ConnState, Legacy.connectionCommit c = Except.ok ((), c)) := by
  refine ⟨?_, ?_, ?_, ?_, ?_, fun s => rfl, fun s => rfl, fun c => rfl, fun c => rfl⟩
  · intro c hc
    simp [ConnectApi.connectionRollback, hc]
  · intro c r
    cases hc : c.closed <;> simp [ConnectApi.connectionRollback, hc]
  · intro s hs
    simp [ConnectApi.callproc, ConnectApi.checkClosed, hs]
  · intro s r
    cases hs : s.isClosed <;> simp [ConnectApi.callproc, ConnectApi.checkClosed, hs]
  · intro c hc
    simp [ConnectApi.connectionCommit, hc]

/-- Witness for C9: the theorem applied to a concrete open connection and a
concrete open cursor. -/
theorem claim9_witness :
    ConnectApi.connectionRollback { closed := false } =
      Except.error (PyError.notSupportedError "Salesforce CDP does not support rollback.") ∧
    ConnectApi.connectionCommit { closed := false } = Except.ok ((), { closed := false }) ∧
    ConnectApi.callproc
        { queryId := some "q1", description := none, rowsBuffer := [], rowIndex := 0,
          nextOffset := 0, queryFinished := true, rowcount := 0, arraysize := 50,
          isClosed := false, served := 0 } =
      Except.error
        (PyError.notSupportedError "Stored procedures not supported by Salesforce CDP.") := by
  exact ⟨claim9_unsupported_ops.1 { closed := false } rfl,
    claim9_unsupported_ops.2.2.2.2.1 { closed := false } rfl,
    claim9_unsupported_ops.2.2.1
      { queryId := some "q1", description := none, rowsBuffer := [], rowIndex := 0,
        nextOffset := 0, queryFinished := true, rowcount := 0, arraysize := 50,
        isClosed := false, served := 0 } rfl⟩

namespace Params

/-- A text without placeholders passes through `replaceFirstQ` untouched on
its left of an append. -/
theorem replaceFirstQ_append_left (repl a b : List Char) (ha : a.count '?' = 0) :
    replaceFirstQ repl (a ++ b) = a ++ replaceFirstQ repl b := by
  induction a with
  | nil => rfl
  | cons c cs ih =>
    rw [List.count_cons] at ha
    have hc : ¬ c = '?' := by
      intro h
      subst h
      simp at ha
    have hcs : cs.count '?' = 0 := by
      omega
    simp [replaceFirstQ, hc, ih hcs]

/-- `substPositionalSpec` copies a placeholder-free left part verbatim. -/
theorem substPositionalSpec_append_left (a rest : List Char) (ps : List PyParam)
    (ha : a.count '?' = 0) :
    substPositionalSpec (a ++ rest) ps = a ++ substPositionalSpec rest ps := by
  induction a with
  | nil => rfl
  | cons c cs ih =>
    rw [List.count_cons] at ha
    have hc : ¬ c = '?' := by
      intro h
      subst h
      simp at ha
    have hcs : cs.count '?' = 0 := by
      omega
    simp [substPositionalSpec, hc, ih hcs]

/-- A text with no placeholders is left unchanged by the spec substitution
of an empty parameter list. -/
theorem substPositionalSpec_of_no_placeholder (q : List Char) (hq : q.count '?' = 0) :
    substPositionalSpec q [] = q := by
  induction q with
  | nil => rfl
  | cons c cs ih =>
    rw [List.count_cons] at hq
    have hc : ¬ c = '?' := by
      intro h
      subst h
      simp at hq
    have hcs : cs.count '?' = 0 := by
      omega
    simp [substPositionalSpec, hc, ih hcs]

/-- A text containing a placeholder splits at its first placeholder. -/
theorem exists_placeholder_split (q : List Char) (hq : q.count '?' ≠ 0) :
    ∃ a b, q = a ++ '?' :: b ∧ a.count '?' = 0 := by
  induction q with
  | nil => simp at hq
  | cons c cs ih =>
    by_cases hc : c = '?'
    · subst hc
      exact ⟨[], cs, rfl, rfl⟩
    · have hcs : cs.count '?' ≠ 0 := by
        rw [List.count_cons] at hq
        simp [hc] at hq
        simpa using hq
      obtain ⟨a, b, hab, hac⟩ := ih hcs
      refine ⟨c :: a, b, by rw [hab]; rfl, ?_⟩
      rw [List.count_cons]
      simp [hc, hac]

/-- When no rendered parameter literal itself contains a placeholder and the
placeholder count matches the parameter count, the source's
replace-the-first-placeholder fold binds the i-th parameter to the i-th
placeholder: it agrees with the spec-worded positional substitution. -/
theorem foldl_replaceNextParam_eq_substPositionalSpec :
    ∀ (ps : List PyParam) (q : List Char), q.count '?' = ps.length →
      (∀ p ∈ ps, (renderParam p).count '?' = 0) →
      ps.foldl replaceNextParam q = substPositionalSpec q ps := by
  intro ps
  induction ps with
  | nil =>
    intro q hq _
    exact (substPositionalSpec_of_no_placeholder q hq).symm
  | cons p ps ih =>
    intro q hq hfree
    have hq0 : q.count '?' ≠ 0 := by
      rw [hq]
      simp
    obtain ⟨a, b, hab, hac⟩ := exists_placeholder_split q hq0
    subst hab
    have hbc : b.count '?' = ps.length := by
      rw [List.count_append, List.count_cons] at hq
      simp [hac] at hq
      omega
    have hrp : (renderParam p).count '?' = 0 := hfree p (List.mem_cons_self p ps)
    have step : replaceNextParam (a ++ '?' :: b) p = a ++ renderParam p ++ b := by
      rw [replaceNextParam, replaceFirstQ_append_left _ a _ hac]
      simp [replaceFirstQ]
    calc (p :: ps).foldl replaceNextParam (a ++ '?' :: b)
        = ps.foldl replaceNextParam (a ++ renderParam p ++ b) := by
          rw [List.foldl_cons, step]
      _ = substPositionalSpec (a ++ renderParam p ++ b) ps := by
          refine ih (a ++ renderParam p ++ b) ?_ fun x hx => hfree x (List.mem_cons_of_mem p hx)
          rw [List.count_append, List.count_append, hac, hrp, hbc]
          omega
      _ = a ++ renderParam p ++ substPositionalSpec b ps := by
          rw [List.append_assoc, substPositionalSpec_append_left a _ ps hac,
            substPositionalSpec_append_left (renderParam p) b ps hrp, List.append_assoc]
      _ = substPositionalSpec (a ++ '?' :: b) (p :: ps) := by
          rw [substPositionalSpec_append_left a _ (p :: ps) hac]
          simp [substPositionalSpec]

end Params

/-- C7, counterexample: a call with one `'?'` placeholder but two parameters
is not rejected — the whole parameter list is stringified and substituted as
one quoted literal.  Moreover a string parameter whose rendered literal
contains `'?'` shifts the later substitutions: the second parameter lands
inside the first literal and the second placeholder survives, instead of the
claimed in-order binding. -/
theorem claim7_counterexample :
    Params.resolveQueryWithParams ("a=?".toList)
        (some (Params.PyParam.list [Params.PyParam.int 1, Params.PyParam.int 2])) =
      Except.ok ("a='[1, 2]'".toList) ∧
    ("a=?".toList).count '?' = 1 ∧
    [Params.PyParam.int 1, Params.PyParam.int 2].length = 2 ∧
    Params.resolveQueryWithParams ("a=? AND b=?".toList)
        (some (Params.PyParam.list [Params.PyParam.str "x?y", Params.PyParam.int 2])) =
      Except.ok ("a='x2y' AND b=?".toList) ∧
    ("a='x2y' AND b=?".toList : List Char) ≠ ("a='x?y' AND b=2".toList : List Char) := by
  exact ⟨rfl, rfl, rfl, rfl, by decide⟩

/-- C7 (amended): with a parameter list whose length matches the placeholder
count, `execute` substitutes the parameters one at a time, each replacing
the first `'?'` remaining in the query text — which binds the i-th parameter
to the i-th placeholder whenever no rendered literal itself contains `'?'`;
numeric parameters are inserted unquoted, other parameters are stringified,
escaped for backslash, newline, carriage-return and single-quote, and
wrapped in single quotes (O'Brien yields 'O\'Brien', numeric 5 an unquoted
5).  A parameter-count mismatch is rejected with an error before any query
is submitted — except when the query has exactly one placeholder, in which
case any non-None params value is stringified and substituted whole. -/
theorem claim7_param_substitution :
    (∀ (query : List Char) (ps : List Params.PyParam),
      query.count '?' = ps.length →
      Params.resolveQueryWithParams query (some (Params.PyParam.list ps)) =
        Except.ok (ps.foldl Params.replaceNextParam query)) ∧
    (∀ (query : List Char) (ps : List Params.PyParam),
      query.count '?' = ps.length →
      (∀ p ∈ ps, (Params.renderParam p).count '?' = 0) →
      ps.foldl Params.replaceNextParam query = Params.substPositionalSpec query ps) ∧
    (∀ (query : List Char) (n : Int),
      Params.replaceNextParam query (Params.PyParam.int n) =
        Params.replaceFirstQ ((toString n).toList) query) ∧
    (∀ (query : List Char) (s : String),
      Params.replaceNextParam query (Params.PyParam.str s) =
        Params.replaceFirstQ (('\'' :: Params.translate s) ++ ['\'']) query) ∧
    (Params.escapeChar '\\' = ['\\', '\\'] ∧ Params.escapeChar '\n' = ['\\', '\\', 'n'] ∧
      Params.escapeChar '\r' = ['\\', '\\', 'r'] ∧ Params.escapeChar '\'' = ['\\', '\''] ∧
      ∀ c : Char, c ≠ '\\' → c ≠ '\n' → c ≠ '\r' → c ≠ '\'' → Params.escapeChar c = [c]) ∧
    (Params.resolveQueryWithParams ("SELECT * FROM t WHERE name = ?".toList)
        (some (Params.PyParam.list [Params.PyParam.str "O'Brien"])) =
      Except.ok ("SELECT * FROM t WHERE name = 'O\\'Brien'".toList)) ∧
    (Params.resolveQueryWithParams ("SELECT * FROM t WHERE name = ?".toList)
        (some (Params.PyParam.list [Params.PyParam.int 5])) =
      Except.ok ("SELECT * FROM t WHERE name = 5".toList)) ∧
    (∀ (query : List Char) (ps : List Params.PyParam),
      query.count '?' ≠ ps.length → query.count '?' ≠ 1 →
      Params.resolveQueryWithParams query (some (Params.PyParam.list ps)) =
        Except.error (PyError.exception "Parameter count not matching")) ∧
    (∀ query : List Char, query.count '?' ≠ 0 →
      Params.resolveQueryWithParams query none =
        Except.error (PyError.exception "Parameter count not matching")) ∧
    (∀ (query : List Char) (params : Option Params.PyParam) (e : PyError),
      Params.resolveQueryWithParams query params = Except.error e →
      Params.executeSubmits false false query params = Except.error e) := by
  refine ⟨?_, ?_, ?_, ?_, ⟨rfl, rfl, rfl, rfl, ?_⟩, rfl, rfl, ?_, ?_, ?_⟩
  · intro query ps hlen
    simp [Params.resolveQueryWithParams, Params.isIterable, Params.pyLen, Params.iterElems, hlen]
  · intro query ps hlen hfree
    exact Params.foldl_replaceNextParam_eq_substPositionalSpec ps query hlen hfree
  · intro query n
    rfl
  · intro query s
    rfl
  · intro c h1 h2 h3 h4
    simp [Params.escapeChar, h1, h2, h3, h4]
  · intro query ps hmis hone
    have hnotit : ¬ (Params.isIterable (Params.PyParam.list ps) = true ∧
        Params.pyLen (Params.PyParam.list ps) = some (query.count '?')) := by
      intro h
      apply hmis
      have h2 := h.2
      simp [Params.pyLen] at h2
      omega
    simp only [Params.resolveQueryWithParams]
    rw [if_neg hnotit, if_neg hone]
  · intro query hq
    simp [Params.resolveQueryWithParams, hq]
  · intro query params e he
    simp [Params.executeSubmits, he]

/-- Witness for C7: two matching parameters substitute positionally — the
numeric one unquoted, the string one quoted. -/
theorem claim7_witness :
    Params.resolveQueryWithParams ("a=? AND b=?".toList)
        (some (Params.PyParam.list [Params.PyParam.int 7, Params.PyParam.str "x"])) =
      Except.ok (Params.substPositionalSpec ("a=? AND b=?".toList)
        [Params.PyParam.int 7, Params.PyParam.str "x"]) ∧
    Params.substPositionalSpec ("a=? AND b=?".toList)
        [Params.PyParam.int 7, Params.PyParam.str "x"] = ("a=7 AND b='x'".toList) := by
  have h := claim7_param_substitution
  have h1 := h.1 ("a=? AND b=?".toList)
    [Params.PyParam.int 7, Params.PyParam.str "x"] (by decide)
  have h2 := h.2.1 ("a=? AND b=?".toList)
    [Params.PyParam.int 7, Params.PyParam.str "x"] (by decide) (by decide)
  exact ⟨h1.trans (congrArg Except.ok h2), by decide⟩

namespace Auth

/-- `isTokenValid` ignores the network-call counter. -/
theorem isTokenValid_set_served (s : AuthState) (n now : Nat) :
    isTokenValid { s with served := n } now = isTokenValid s now := rfl

/-- Every slept delay of the retry loop is one of the scripted
`random.randint` draws. -/
theorem getTokenLoop_slept_are_draws (flows : Nat → FlowResult) (delays : Nat → Nat)
    (now maxRetries : Nat) :
    ∀ (remaining i : Nat) (s : AuthState),
      ∀ d ∈ (getTokenLoop flows delays now maxRetries i remaining s).2.2, ∃ j, d = delays j := by
  intro remaining
  induction remaining with
  | zero => intro i s d hd; simp [getTokenLoop] at hd
  | succ rem ih =>
    intro i s d hd
    rw [getTokenLoop] at hd
    rcases hlock : lockedGetToken flows now s with ⟨res, s1⟩
    rw [hlock] at hd
    cases res with
    | ok pair => simp at hd
    | error e =>
      cases e with
      | valueError msg =>
        by_cases hi : i + 1 = maxRetries
        · simp [hi] at hd
        · simp [hi] at hd
          rcases hd with hd | hd
          · exact ⟨i, hd⟩
          · exact ih (i + 1) s1 d hd
      | error m => simp at hd
      | indexError => simp at hd
      | internalError m => simp at hd
      | notSupportedError m => simp at hd
      | authenticationError m => simp at hd
      | exception m => simp at hd

/-- One `_get_token` call makes at most one authentication flow execution. -/
theorem lockedGetToken_served_le (flows : Nat → FlowResult) (now : Nat) (s : AuthState) :
    (lockedGetToken flows now s).2.served ≤ s.served + 1 := by
  rw [lockedGetToken]
  by_cases hv : isTokenValid s now
  · simp [hv]
  · simp only [hv, if_false, Bool.false_eq_true]
    cases flows s.served <;> simp

/-- The retry loop makes at most `remaining` further flow executions. -/
theorem getTokenLoop_served_le (flows : Nat → FlowResult) (delays : Nat → Nat)
    (now maxRetries : Nat) :
    ∀ (remaining i : Nat) (s : AuthState),
      (getTokenLoop flows delays now maxRetries i remaining s).2.1.served ≤
        s.served + remaining := by
  intro remaining
  induction remaining with
  | zero => intro i s; simp [getTokenLoop]
  | succ rem ih =>
    intro i s
    rw [getTokenLoop]
    rcases hlock : lockedGetToken flows now s with ⟨res, s1⟩
    have hs1 : s1.served ≤ s.served + 1 := by
      have := lockedGetToken_served_le flows now s
      rw [hlock] at this
      exact this
    cases res with
    | ok pair => simpa using Nat.le_trans hs1 (by omega)
    | error e =>
      cases e with
      | valueError msg =>
        by_cases hi : i + 1 = maxRetries
        · simp only [hi, if_true]
          exact Nat.le_trans hs1 (by omega)
        · simp only [hi, if_false]
          have := ih (i + 1) s1
          exact Nat.le_trans this (by omega)
      | error m => exact Nat.le_trans hs1 (by omega)
      | indexError => exact Nat.le_trans hs1 (by omega)
      | internalError m => exact Nat.le_trans hs1 (by omega)
      | notSupportedError m => exact Nat.le_trans hs1 (by omega)
      | authenticationError m => exact Nat.le_trans hs1 (by omega)
      | exception m => exact Nat.le_trans hs1 (by omega)

end Auth

/-- C4, counterexample: with the default `max_retries = 3` and three
`ValueError` failures, `get_token` re-raises the last `ValueError` as-is —
not an `AuthenticationError`; and with `max_retries = 4` the loop exhausts
its fixed 3 iterations without re-raising and the failure is swallowed into
a returned Python `None`. -/
theorem claim4_counterexample :
    (Auth.getToken (fun i => Auth.FlowResult.failure (PyError.valueError (toString i)))
        (fun _ => 0) 100 3
        { exchangeToken := none, instanceUrl := none, tokenExpiryTime := none, served := 0 })
      = (Auth.GetTokenResult.raised (PyError.valueError "2"),
          { exchangeToken := none, instanceUrl := none, tokenExpiryTime := none, served := 3 },
          [0, 0]) ∧
    PyError.isAuthenticationError (PyError.valueError "2") = false ∧
    (Auth.getToken (fun i => Auth.FlowResult.failure (PyError.valueError (toString i)))
        (fun _ => 0) 100 4
        { exchangeToken := none, instanceUrl := none, tokenExpiryTime := none, served := 0 })
      = (Auth.GetTokenResult.pyNone,
          { exchangeToken := none, instanceUrl := none, tokenExpiryTime := none, served := 3 },
          [0, 0, 0]) := by
  exact ⟨by decide, by decide, by decide⟩

/-- C4 (amended): with no valid cached token, `get_token` runs up to
`MAX_RETRY_COUNT = 3` authentication attempts, retrying only failures that
are `ValueError`s, sleeping one `random.randint(0, 5)` draw between
attempts; a non-`ValueError` failure propagates immediately without retry; a
success returns at once; when every attempt fails with a `ValueError` the
last one is re-raised unchanged (not wrapped in `AuthenticationError`) if
`connection.max_retries` equals the attempt number, and with
`max_retries` outside 1..3 the loop exhausts and the call returns Python
`None`. -/
theorem claim4_retry_policy :
    (∀ (flows : Nat → Auth.FlowResult) (delays : Nat → Nat) (now maxRetries : Nat)
        (s : Auth.AuthState) (e : PyError),
      Auth.isTokenValid s now = false →
      flows s.served = Auth.FlowResult.failure e →
      (∀ msg, e ≠ PyError.valueError msg) →
      Auth.getToken flows delays now maxRetries s =
        (Auth.GetTokenResult.raised e, { s with served := s.served + 1 }, [])) ∧
    (∀ (flows : Nat → Auth.FlowResult) (delays : Nat → Nat) (now maxRetries : Nat)
        (s : Auth.AuthState) (t u : String) (expiresIn : Nat),
      Auth.isTokenValid s now = false →
      flows s.served = Auth.FlowResult.success t u expiresIn →
      Auth.getToken flows delays now maxRetries s =
        (Auth.GetTokenResult.ok (some t, some u),
          { exchangeToken := some t, instanceUrl := some u,
            tokenExpiryTime := some (now + expiresIn), served := s.served + 1 }, [])) ∧
    (∀ (flows : Nat → Auth.FlowResult) (delays : Nat → Nat) (now : Nat)
        (s : Auth.AuthState) (m0 m1 m2 : String),
      Auth.isTokenValid s now = false →
      flows s.served = Auth.FlowResult.failure (PyError.valueError m0) →
      flows (s.served + 1) = Auth.FlowResult.failure (PyError.valueError m1) →
      flows (s.served + 2) = Auth.FlowResult.failure (PyError.valueError m2) →
      Auth.getToken flows delays now 3 s =
        (Auth.GetTokenResult.raised (PyError.valueError m2),
          { s with served := s.served + 3 }, [delays 0, delays 1])) ∧
    (∀ (flows : Nat → Auth.FlowResult) (delays : Nat → Nat) (now maxRetries : Nat)
        (s : Auth.AuthState) (m0 m1 m2 : String),
      Auth.isTokenValid s now = false →
      flows s.served = Auth.FlowResult.failure (PyError.valueError m0) →
      flows (s.served + 1) = Auth.FlowResult.failure (PyError.valueError m1) →
      flows (s.served + 2) = Auth.FlowResult.failure (PyError.valueError m2) →
      maxRetries ≠ 1 → maxRetries ≠ 2 → maxRetries ≠ 3 →
      Auth.getToken flows delays now maxRetries s =
        (Auth.GetTokenResult.pyNone,
          { s with served := s.served + 3 }, [delays 0, delays 1, delays 2])) ∧
    (∀ (flows : Nat → Auth.FlowResult) (delays : Nat → Nat) (now maxRetries : Nat)
        (s : Auth.AuthState),
      (Auth.getToken flows delays now maxRetries s).2.1.served ≤
        s.served + Auth.MAX_RETRY_COUNT) ∧
    (∀ (flows : Nat → Auth.FlowResult) (delays : Nat → Nat) (now maxRetries : Nat)
        (s : Auth.AuthState),
      (∀ i, delays i ≤ Auth.RETRY_DELAY_MAX_SECONDS) →
      ∀ d ∈ (Auth.getToken flows delays now maxRetries s).2.2,
        Auth.RETRY_DELAY_MIN_SECONDS ≤ d ∧ d ≤ Auth.RETRY_DELAY_MAX_SECONDS) := by
  refine ⟨?_, ?_, ?_, ?_, ?_, ?_⟩
  · intro flows delays now maxRetries s e hvalid hflow hne
    cases e with
    | valueError msg => exact absurd rfl (hne msg)
    | error m =>
      simp [Auth.getToken, Auth.getTokenLoop, Auth.lockedGetToken, Auth.MAX_RETRY_COUNT,
        hvalid, hflow]
    | indexError =>
      simp [Auth.getToken, Auth.getTokenLoop, Auth.lockedGetToken, Auth.MAX_RETRY_COUNT,
        hvalid, hflow]
    | internalError m =>
      simp [Auth.getToken, Auth.getTokenLoop, Auth.lockedGetToken, Auth.MAX_RETRY_COUNT,
        hvalid, hflow]
    | notSupportedError m =>
      simp [Auth.getToken, Auth.getTokenLoop, Auth.lockedGetToken, Auth.MAX_RETRY_COUNT,
        hvalid, hflow]
    | authenticationError m =>
      simp [Auth.getToken, Auth.getTokenLoop, Auth.lockedGetToken, Auth.MAX_RETRY_COUNT,
        hvalid, hflow]
    | exception m =>
      simp [Auth.getToken, Auth.getTokenLoop, Auth.lockedGetToken, Auth.MAX_RETRY_COUNT,
        hvalid, hflow]
  · intro flows delays now maxRetries s t u expiresIn hvalid hflow
    simp [Auth.getToken, Auth.getTokenLoop, Auth.lockedGetToken, Auth.MAX_RETRY_COUNT,
      hvalid, hflow]
  · intro flows delays now s m0 m1 m2 hvalid h0 h1 h2
    simp [Auth.getToken, Auth.getTokenLoop, Auth.lockedGetToken, Auth.MAX_RETRY_COUNT,
      hvalid, h0, h1, h2, Auth.isTokenValid_set_served]
  · intro flows delays now maxRetries s m0 m1 m2 hvalid h0 h1 h2 hm1 hm2 hm3
    simp [Auth.getToken, Auth.getTokenLoop, Auth.lockedGetToken, Auth.MAX_RETRY_COUNT,
      hvalid, h0, h1, h2, Auth.isTokenValid_set_served, Ne.symm hm1, Ne.symm hm2, Ne.symm hm3]
  · intro flows delays now maxRetries s
    rw [Auth.getToken]
    by_cases hv : Auth.isTokenValid s now
    · simp [hv, Auth.MAX_RETRY_COUNT]
    · simp only [hv, Bool.false_eq_true, if_false]
      exact Auth.getTokenLoop_served_le flows delays now maxRetries Auth.MAX_RETRY_COUNT 0 s
  · intro flows delays now maxRetries s hrange d hd
    rw [Auth.getToken] at hd
    by_cases hv : Auth.isTokenValid s now
    · simp [hv] at hd
    · simp only [hv, Bool.false_eq_true, if_false] at hd
      obtain ⟨j, hj⟩ :=
        Auth.getTokenLoop_slept_are_draws flows delays now maxRetries Auth.MAX_RETRY_COUNT 0 s d hd
      subst hj
      exact ⟨Nat.zero_le _, hrange j⟩

/-- Witness for C4: a concrete helper with an expired token and three
`ValueError` failures under the default bound re-raises the last failure
after two sleeps. -/
theorem claim4_witness :
    Auth.getToken (fun _ => Auth.FlowResult.failure (PyError.valueError "boom"))
        (fun _ => 2) 50 3
        { exchangeToken := none, instanceUrl := none, tokenExpiryTime := some 10, served := 5 } =
      (Auth.GetTokenResult.raised (PyError.valueError "boom"),
        { exchangeToken := none, instanceUrl := none, tokenExpiryTime := some 10, served := 8 },
        [2, 2]) := by
  exact claim4_retry_policy.2.2.1 (fun _ => Auth.FlowResult.failure (PyError.valueError "boom"))
    (fun _ => 2) 50
    { exchangeToken := none, instanceUrl := none, tokenExpiryTime := some 10, served := 5 }
    "boom" "boom" "boom" (by decide) rfl rfl rfl

/-- C5 (confirmed): a `get_token` call while the cached session is still
valid returns the cached (token, instance url) pair with the helper state —
including the network counter — completely unchanged; consequently, after a
first call refreshes the token with one authentication flow execution, a
second call within the TTL window returns the byte-identical pair with no
further network I/O. -/
theorem claim5_cached_token :
    (∀ (flows : Nat → Auth.FlowResult) (delays : Nat → Nat) (now maxRetries : Nat)
        (s : Auth.AuthState),
      Auth.isTokenValid s now = true →
      Auth.getToken flows delays now maxRetries s =
        (Auth.GetTokenResult.ok (Auth.cachedPair s), s, [])) ∧
    (∀ (flows : Nat → Auth.FlowResult) (delays : Nat → Nat) (now1 now2 maxRetries : Nat)
        (s : Auth.AuthState) (t u : String) (expiresIn : Nat),
      Auth.isTokenValid s now1 = false →
      flows s.served = Auth.FlowResult.success t u expiresIn →
      now2 < now1 + expiresIn →
      Auth.getToken flows delays now1 maxRetries s =
        (Auth.GetTokenResult.ok (some t, some u),
          { exchangeToken := some t, instanceUrl := some u,
            tokenExpiryTime := some (now1 + expiresIn), served := s.served + 1 }, []) ∧
      Auth.getToken flows delays now2 maxRetries
          { exchangeToken := some t, instanceUrl := some u,
            tokenExpiryTime := some (now1 + expiresIn), served := s.served + 1 } =
        (Auth.GetTokenResult.ok (some t, some u),
          { exchangeToken := some t, instanceUrl := some u,
            tokenExpiryTime := some (now1 + expiresIn), served := s.served + 1 }, [])) := by
  constructor
  · intro flows delays now maxRetries s hv
    simp [Auth.getToken, hv]
  · intro flows delays now1 now2 maxRetries s t u expiresIn hvalid hflow hwindow
    constructor
    · simp [Auth.getToken, Auth.getTokenLoop, Auth.lockedGetToken, Auth.MAX_RETRY_COUNT,
        hvalid, hflow]
    · have hv2 : Auth.isTokenValid
          { exchangeToken := some t, instanceUrl := some u,
            tokenExpiryTime := some (now1 + expiresIn), served := s.served + 1 } now2 = true := by
        simp [Auth.isTokenValid, hwindow]
      simp [Auth.getToken, hv2, Auth.cachedPair]

/-- Witness for C5: a concrete expired helper refreshed at time 100 with a
1000-second TTL serves the same token from cache at time 900. -/
theorem claim5_witness :
    Auth.getToken (fun _ => Auth.FlowResult.success "tok" "url.example" 1000)
        (fun _ => 0) 100 3
        { exchangeToken := none, instanceUrl := none, tokenExpiryTime := none, served := 0 } =
      (Auth.GetTokenResult.ok (some "tok", some "url.example"),
        { exchangeToken := some "tok", instanceUrl := some "url.example",
          tokenExpiryTime := some 1100, served := 1 }, []) ∧
    Auth.getToken (fun _ => Auth.FlowResult.success "tok" "url.example" 1000)
        (fun _ => 0) 900 3
        { exchangeToken := some "tok", instanceUrl := some "url.example",
          tokenExpiryTime := some 1100, served := 1 } =
      (Auth.GetTokenResult.ok (some "tok", some "url.example"),
        { exchangeToken := some "tok", instanceUrl := some "url.example",
          tokenExpiryTime := some 1100, served := 1 }, []) := by
  exact claim5_cached_token.2 (fun _ => Auth.FlowResult.success "tok" "url.example" 1000)
    (fun _ => 0) 100 900 3
    { exchangeToken := none, instanceUrl := none, tokenExpiryTime := none, served := 0 }
    "tok" "url.example" 1000 (by decide) rfl (by decide)

/-- C2 (confirmed): once a cursor is finished, no fetch operation performs
any network request (the call counter and server script position never move)
and the internal page fetch returns false without touching the state; this
holds for the Connect API cursor (`_query_finished = true`) and for the
legacy cursor (`has_next = False`). -/
theorem claim2_finished_no_network :
    (∀ (srv : Nat → ConnectApi.PageResponse) (s : ConnectApi.CState),
      s.queryFinished = true →
      ConnectApi.fetchMoreData srv s = Except.ok (false, s)) ∧
    (∀ (srv : Nat → ConnectApi.PageResponse) (s : ConnectApi.CState),
      s.queryFinished = true → s.isClosed = false → s.rowsBuffer[s.rowIndex]? = none →
      ConnectApi.fetchone srv s = Except.ok (none, s)) ∧
    (∀ (srv : Nat → ConnectApi.PageResponse) (s : ConnectApi.CState) (row : List Value),
      s.queryFinished = true → s.isClosed = false → s.rowsBuffer[s.rowIndex]? = some row →
      ConnectApi.fetchone srv s =
        Except.ok (some row, { s with rowIndex := s.rowIndex + 1 })) ∧
    (∀ (srv : Nat → ConnectApi.PageResponse) (s : ConnectApi.CState) (qid : String)
        (fuel : Nat),
      s.queryFinished = true → s.isClosed = false → s.queryId = some qid →
      ConnectApi.fetchall srv fuel s =
        some (Except.ok (s.rowsBuffer.drop s.rowIndex,
          { s with rowIndex := s.rowsBuffer.length }))) ∧
    (∀ (srv : Nat → ConnectApi.PageResponse) (s : ConnectApi.CState) (size : Option Nat)
        (fuel : Nat),
      s.queryFinished = true → s.isClosed = false →
      ∃ (rows : List (List Value)) (s2 : ConnectApi.CState),
        ConnectApi.fetchmany srv (fuel + 1) size s = some (Except.ok (rows, s2)) ∧
        s2.served = s.served) ∧
    (∀ (srv : Nat → Legacy.BatchResult) (s : Legacy.LState) (fuel : Nat),
      s.hasNext = some false → s.hasResult = true → s.closed = false → s.connClosed = false →
      Legacy.fetchall srv fuel s =
        some (Except.ok (s.data.getD [], { s with hasResult := false }))) ∧
    (∀ (srv : Nat → Legacy.BatchResult) (s : Legacy.LState),
      s.hasNext = some false → s.hasResult = true → s.closed = false → s.connClosed = false →
      ∃ (r : Option (List Value)) (s2 : Legacy.LState),
        Legacy.fetchone srv s = Except.ok (r, s2) ∧ s2.served = s.served) := by
  refine ⟨?_, ?_, ?_, ?_, ?_, ?_, ?_⟩
  · intro srv s h
    simp [ConnectApi.fetchMoreData, h]
  · intro srv s h hc hb
    simp [ConnectApi.fetchone, ConnectApi.checkClosed, hc, hb, h]
  · intro srv s row h hc hb
    simp [ConnectApi.fetchone, ConnectApi.checkClosed, hc, hb]
  · intro srv s qid fuel h hc hq
    have hq2 : ¬ s.queryId = none := by
      rw [hq]
      simp
    cases fuel with
    | zero => simp [ConnectApi.fetchall, ConnectApi.checkClosed, hq2, hc, ConnectApi.fetchallLoop, h]
    | succ n => simp [ConnectApi.fetchall, ConnectApi.checkClosed, hq2, hc, ConnectApi.fetchallLoop, h]
  · intro srv s size fuel h hc
    rw [ConnectApi.fetchmany]
    simp only [ConnectApi.checkClosed, hc, Bool.false_eq_true, if_false]
    by_cases hz : size.getD s.arraysize = 0
    · exact ⟨[], s, by simp [hz], rfl⟩
    · rw [if_neg hz, ConnectApi.fetchmanyLoop]
      have hlt : ¬ size.getD s.arraysize ≤ ([] : List (List Value)).length := by
        simp
        omega
      rw [if_neg hlt]
      simp only [h, Bool.true_eq_false, not_true, and_false, if_false, List.length_nil,
        Nat.sub_zero, List.nil_append]
      exact ⟨_, _, rfl, rfl⟩
  · intro srv s fuel hnext hres hc hcc
    have hn2 : ¬ s.hasNext = some true := by
      rw [hnext]
      simp
    cases fuel with
    | zero => simp [Legacy.fetchall, hres, Legacy.fetchallLoop, hn2, Legacy.checkClosed, hc, hcc]
    | succ n => simp [Legacy.fetchall, hres, Legacy.fetchallLoop, hn2, Legacy.checkClosed, hc, hcc]
  · intro srv s hnext hres hc hcc
    have hn2 : ¬ s.hasNext = some true := by
      rw [hnext]
      simp
    rcases hdata : s.data with _ | ⟨_ | ⟨row, rest⟩⟩
    · exact ⟨none, { s with hasResult := false }, by
        simp [Legacy.fetchone, hres, Legacy.checkClosed, hc, hcc, hdata, hn2], rfl⟩
    · exact ⟨none, { s with hasResult := false }, by
        simp [Legacy.fetchone, hres, Legacy.checkClosed, hc, hcc, hdata, hn2], rfl⟩
    · exact ⟨some row, { s with data := some rest }, by
        simp [Legacy.fetchone, hres, Legacy.checkClosed, hc, hcc, hdata], rfl⟩

/-- Witness for C2: a concrete finished Connect API cursor ignores a server
that still offers data, and a concrete finished legacy cursor drains its
buffer without fetching. -/
theorem claim2_witness :
    ConnectApi.fetchMoreData
        (fun _ => { data := PageData.positional [[Value.int 9]], returnedRows := none,
                    totalRows := none, nextOffset := some 0 })
        { queryId := some "q", description := none, rowsBuffer := [[Value.int 1], [Value.int 2]],
          rowIndex := 1, nextOffset := 2, queryFinished := true, rowcount := 2, arraysize := 50,
          isClosed := false, served := 4 } =
      Except.ok (false,
        { queryId := some "q", description := none, rowsBuffer := [[Value.int 1], [Value.int 2]],
          rowIndex := 1, nextOffset := 2, queryFinished := true, rowcount := 2, arraysize := 50,
          isClosed := false, served := 4 }) ∧
    Legacy.fetchall
        (fun _ => { data := [[Value.int 9]], description := [], hasNext := false,
                    nextBatchId := none })
        3
        { description := none, data := some [[Value.int 1]], hasNext := some false,
          nextBatchId := none, closed := false, connClosed := false, hasResult := true,
          served := 2 } =
      some (Except.ok ([[Value.int 1]],
        { description := none, data := some [[Value.int 1]], hasNext := some false,
          nextBatchId := none, closed := false, connClosed := false, hasResult := false,
          served := 2 })) := by
  constructor
  · exact claim2_finished_no_network.1
      (fun _ => { data := PageData.positional [[Value.int 9]], returnedRows := none,
                  totalRows := none, nextOffset := some 0 })
      { queryId := some "q", description := none, rowsBuffer := [[Value.int 1], [Value.int 2]],
        rowIndex := 1, nextOffset := 2, queryFinished := true, rowcount := 2, arraysize := 50,
        isClosed := false, served := 4 } rfl
  · exact claim2_finished_no_network.2.2.2.2.2.1
      (fun _ => { data := [[Value.int 9]], description := [], hasNext := false,
                  nextBatchId := none })
      { description := none, data := some [[Value.int 1]], hasNext := some false,
        nextBatchId := none, closed := false, connClosed := false, hasResult := true,
        served := 2 } 3 rfl rfl rfl rfl

namespace ConnectApi

/-- A page fetch on a continuing page appends the page's tuples, advances
the offset and the network counter, and leaves the query unfinished. -/
theorem fetchMoreData_continues (srv : Nat → PageResponse) (s : CState) (qid : String)
    (hfin : s.queryFinished = false) (hqid : s.queryId = some qid)
    (hcont : pageContinues s.arraysize (srv s.served)) :
    fetchMoreData srv s = Except.ok (true,
      { s with served := s.served + 1,
               rowsBuffer := s.rowsBuffer ++ dataToTuples s.description (srv s.served).data,
               nextOffset := s.nextOffset + (srv s.served).returned }) := by
  obtain ⟨hlen, hret, htot, hoff, hshort⟩ := hcont
  have hqid2 : ¬ s.queryId = none := by
    rw [hqid]
    simp
  rw [fetchMoreData]
  simp only [hfin, Bool.false_eq_true, if_false, hqid2, if_false]
  have hretlen : (srv s.served).returned = (srv s.served).data.length := by
    simp [PageResponse.returned, hret]
  have hcond : ¬ ((srv s.served).data.length = 0 ∨ (srv s.served).returned = 0) := by
    rw [hretlen]
    omega
  rw [if_neg hcond]
  rcases hoff2 : (srv s.served).nextOffset with _ | nn
  · rw [hoff2] at hoff
    simp at hoff
  · have hnn : ¬ nn < 0 := by
      rw [hoff2] at hoff
      simp at hoff
      omega
    have hshort2 : ¬ (srv s.served).returned < s.arraysize := by
      rw [hretlen]
      omega
    simp only [hoff2, htot, hnn, if_false, hshort2, decide_eq_true_eq, decide_eq_false_iff_not,
      not_lt]

/-- A page fetch on a non-empty page returns `True` with the page's tuples
appended, whatever the finished-inference decides. -/
theorem fetchMoreData_nonempty (srv : Nat → PageResponse) (s : CState) (qid : String)
    (hfin : s.queryFinished = false) (hqid : s.queryId = some qid)
    (hlen : (srv s.served).data.length ≠ 0) (hret : (srv s.served).returned ≠ 0) :
    ∃ s1 : CState, fetchMoreData srv s = Except.ok (true, s1) ∧
      s1.rowsBuffer = s.rowsBuffer ++ dataToTuples s.description (srv s.served).data ∧
      s1.rowIndex = s.rowIndex ∧ s1.served = s.served + 1 := by
  have hqid2 : ¬ s.queryId = none := by
    rw [hqid]
    simp
  rw [fetchMoreData]
  simp only [hfin, Bool.false_eq_true, if_false, hqid2, if_false]
  have hcond : ¬ ((srv s.served).data.length = 0 ∨ (srv s.served).returned = 0) := by
    omega
  rw [if_neg hcond]
  by_cases hfin2 : (match (srv s.served).nextOffset with
    | none => true
    | some no =>
      if no < 0 then true
      else
        match (srv s.served).totalRows with
        | some total =>
          if total ≤ s.nextOffset + (srv s.served).returned then true
          else decide ((srv s.served).returned < s.arraysize)
        | none => decide ((srv s.served).returned < s.arraysize)) = true
  · rw [if_pos hfin2]
    exact ⟨_, rfl, rfl, rfl, rfl⟩
  · rw [if_neg hfin2]
    exact ⟨_, rfl, rfl, rfl, rfl⟩

end ConnectApi

/-- C3, counterexample: the legacy cursor's `fetchone`, with its buffer
exhausted and `has_next` true, fetches one batch that turns out empty and
then raises `IndexError` from the unguarded `self.data.pop(0)` — an
out-of-bounds error on an empty fetched page, which the claim rules out. -/
theorem claim3_counterexample :
    Legacy.fetchone
        (fun _ => { data := [], description := [], hasNext := false, nextBatchId := none })
        { description := none, data := some [], hasNext := some true, nextBatchId := some "b1",
          closed := false, connClosed := false, hasResult := true, served := 0 } =
      Except.error PyError.indexError := by
  rfl

/-- C3 (amended): the Connect API cursor's `fetchone` returns and consumes
the next buffered row; with the buffer exhausted and the query unfinished it
performs exactly one page fetch and then returns the first row of the new
page, or — when the fetched page is empty — returns null and marks the
cursor finished, never raising an out-of-bounds error; when already
finished it returns null with no I/O.  The legacy cursor's `fetchone`
instead raises `IndexError` when the one batch it fetches is empty. -/
theorem claim3_fetchone :
    (∀ (srv : Nat → ConnectApi.PageResponse) (s : ConnectApi.CState) (row : List Value),
      s.isClosed = false → s.rowsBuffer[s.rowIndex]? = some row →
      ConnectApi.fetchone srv s =
        Except.ok (some row, { s with rowIndex := s.rowIndex + 1 })) ∧
    (∀ (srv : Nat → ConnectApi.PageResponse) (s : ConnectApi.CState) (qid : String),
      s.isClosed = false → s.rowsBuffer[s.rowIndex]? = none → s.queryFinished = false →
      s.queryId = some qid →
      ((srv s.served).data.length = 0 ∨ (srv s.served).returned = 0) →
      ConnectApi.fetchone srv s =
        Except.ok (none,
          { s with served := s.served + 1, queryFinished := true,
                   rowcount := (s.rowIndex : Int) + (s.rowsBuffer.length : Int) })) ∧
    (∀ (srv : Nat → ConnectApi.PageResponse) (s : ConnectApi.CState) (qid : String),
      s.isClosed = false → s.rowIndex = s.rowsBuffer.length → s.queryFinished = false →
      s.queryId = some qid →
      (srv s.served).data.length ≠ 0 → (srv s.served).returned ≠ 0 →
      ∃ (row : List Value) (s2 : ConnectApi.CState),
        ConnectApi.fetchone srv s = Except.ok (some row, s2) ∧
        s2.served = s.served + 1 ∧
        (dataToTuples s.description (srv s.served).data)[0]? = some row) ∧
    (∀ (srv : Nat → ConnectApi.PageResponse) (s : ConnectApi.CState),
      s.isClosed = false → s.rowsBuffer[s.rowIndex]? = none → s.queryFinished = true →
      ConnectApi.fetchone srv s = Except.ok (none, s)) ∧
    (∀ (srv : Nat → Legacy.BatchResult) (s : Legacy.LState),
      s.hasResult = true → s.closed = false → s.connClosed = false →
      (s.data = some [] ∨ s.data = none) → s.hasNext = some true →
      (srv s.served).data = [] →
      Legacy.fetchone srv s = Except.error PyError.indexError) := by
  refine ⟨?_, ?_, ?_, ?_, ?_⟩
  · intro srv s row hc hb
    simp [ConnectApi.fetchone, ConnectApi.checkClosed, hc, hb]
  · intro srv s qid hc hb hfin hqid hempty
    have hqid2 : ¬ s.queryId = none := by
      rw [hqid]
      simp
    rw [ConnectApi.fetchone]
    simp only [ConnectApi.checkClosed, hc, Bool.false_eq_true, if_false, hb, hfin, not_false_iff,
      if_true]
    rw [ConnectApi.fetchMoreData]
    simp only [hfin, Bool.false_eq_true, if_false, hqid2, if_false, hempty, if_pos]
    rw [hc]
  · intro srv s qid hc hidx hfin hqid hlen hret
    obtain ⟨s1, hfetch, hbuf, hri, hserved⟩ :=
      ConnectApi.fetchMoreData_nonempty srv s qid hfin hqid hlen hret
    have htlen : (dataToTuples s.description (srv s.served).data).length ≠ 0 := by
      rw [dataToTuples_length]
      exact hlen
    rcases htup : dataToTuples s.description (srv s.served).data with _ | ⟨t0, trest⟩
    · rw [htup] at htlen
      simp at htlen
    · have hb : s.rowsBuffer[s.rowIndex]? = none := by
        rw [hidx]
        simp
      have hb1 : s1.rowsBuffer[s1.rowIndex]? = some t0 := by
        rw [hbuf, hri, hidx, htup]
        rw [List.getElem?_append_right (Nat.le_refl _)]
        simp
      refine ⟨t0, { s1 with rowIndex := s1.rowIndex + 1 }, ?_, by simp [hserved], by simp⟩
      rw [ConnectApi.fetchone]
      simp only [ConnectApi.checkClosed, hc, Bool.false_eq_true, if_false, hb, hfin,
        not_false_iff, if_true, hfetch, hb1]
  · intro srv s hc hb hfin
    simp [ConnectApi.fetchone, ConnectApi.checkClosed, hc, hb, hfin]
  · intro srv s hres hc hcc hdata hnext hsrv
    rcases hdata with hdata | hdata
    · simp [Legacy.fetchone, hres, Legacy.checkClosed, hc, hcc, hdata, hnext, hsrv]
    · simp [Legacy.fetchone, hres, Legacy.checkClosed, hc, hcc, hdata, hnext, hsrv]

/-- Witness for C3: a concrete exhausted, unfinished Connect API cursor
whose next page is empty returns null, marks itself finished, and has made
exactly one page request; a buffered cursor just pops its row. -/
theorem claim3_witness :
    ConnectApi.fetchone
        (fun _ => { data := PageData.positional [], returnedRows := none, totalRows := none,
                    nextOffset := some 3 })
        { queryId := some "q", description := none, rowsBuffer := [[Value.int 1]], rowIndex := 1,
          nextOffset := 1, queryFinished := false, rowcount := -1, arraysize := 50,
          isClosed := false, served := 1 } =
      Except.ok (none,
        { queryId := some "q", description := none, rowsBuffer := [[Value.int 1]], rowIndex := 1,
          nextOffset := 1, queryFinished := true, rowcount := 2, arraysize := 50,
          isClosed := false, served := 2 }) ∧
    ConnectApi.fetchone
        (fun _ => { data := PageData.positional [], returnedRows := none, totalRows := none,
                    nextOffset := some 3 })
        { queryId := some "q", description := none, rowsBuffer := [[Value.int 1]], rowIndex := 0,
          nextOffset := 1, queryFinished := false, rowcount := -1, arraysize := 50,
          isClosed := false, served := 1 } =
      Except.ok (some [Value.int 1],
        { queryId := some "q", description := none, rowsBuffer := [[Value.int 1]], rowIndex := 1,
          nextOffset := 1, queryFinished := false, rowcount := -1, arraysize := 50,
          isClosed := false, served := 1 }) := by
  constructor
  · have h := claim3_fetchone.2.1
      (fun _ => { data := PageData.positional [], returnedRows := none, totalRows := none,
                  nextOffset := some 3 })
      { queryId := some "q", description := none, rowsBuffer := [[Value.int 1]], rowIndex := 1,
        nextOffset := 1, queryFinished := false, rowcount := -1, arraysize := 50,
        isClosed := false, served := 1 }
      "q" rfl (by decide) rfl rfl (Or.inl rfl)
    exact h
  · have h := claim3_fetchone.1
      (fun _ => { data := PageData.positional [], returnedRows := none, totalRows := none,
                  nextOffset := some 3 })
      { queryId := some "q", description := none, rowsBuffer := [[Value.int 1]], rowIndex := 0,
        nextOffset := 1, queryFinished := false, rowcount := -1, arraysize := 50,
        isClosed := false, served := 1 }
      [Value.int 1] rfl (by decide)
    exact h

/-- A page fetch whose response has zero rows (or a zero `returnedRows`)
marks the query finished and reports no new data, regardless of the
continuation signals. -/
theorem ConnectApi.fetchMoreData_zero (srv : Nat → ConnectApi.PageResponse)
    (s : ConnectApi.CState) (qid : String)
    (hfin : s.queryFinished = false) (hqid : s.queryId = some qid)
    (hz : (srv s.served).data.length = 0 ∨ (srv s.served).returned = 0) :
    ConnectApi.fetchMoreData srv s = Except.ok (false,
      { s with served := s.served + 1, queryFinished := true,
               rowcount := (s.rowIndex : Int) + (s.rowsBuffer.length : Int) }) := by
  have hqid2 : ¬ s.queryId = none := by
    rw [hqid]
    simp
  rw [ConnectApi.fetchMoreData]
  simp only [hfin, Bool.false_eq_true, if_false, hqid2]
  rw [if_pos hz]

/-- The `fetchall` loop driven through a run of continuing pages and stopped
by the first zero-row page: it terminates with exactly the concatenation of
the non-empty pages' tuples appended to the accumulator, finished, having
made one network request per page including the final empty one. -/
theorem fetchallLoop_stops_on_zero_page :
    ∀ (pages : List ConnectApi.PageResponse) (srv : Nat → ConnectApi.PageResponse)
      (s : ConnectApi.CState) (acc : List (List Value)) (qid : String),
      s.queryFinished = false → s.queryId = some qid → s.rowIndex = s.rowsBuffer.length →
      (∀ (j : Nat) (p : ConnectApi.PageResponse), pages[j]? = some p → srv (s.served + j) = p) →
      (∀ p ∈ pages, ConnectApi.pageContinues s.arraysize p) →
      (srv (s.served + pages.length)).data.length = 0 →
      ∃ s2 : ConnectApi.CState,
        ConnectApi.fetchallLoop srv (pages.length + 1) s acc =
          some (Except.ok
            (acc ++ (pages.map fun p => dataToTuples s.description p.data).flatten, s2)) ∧
        s2.queryFinished = true ∧ s2.served = s.served + pages.length + 1 := by
  intro pages
  induction pages with
  | nil =>
    intro srv s acc qid hfin hqid hidx hsrv hcont hzero
    simp only [List.length_nil, Nat.add_zero] at hzero
    refine ⟨{ s with served := s.served + 1, queryFinished := true,
                     rowcount := (s.rowIndex : Int) + (s.rowsBuffer.length : Int) },
      ?_, rfl, by simp⟩
    rw [ConnectApi.fetchallLoop]
    simp only [hfin, Bool.false_eq_true, if_false]
    rw [ConnectApi.fetchMoreData_zero srv s qid hfin hqid (Or.inl hzero)]
    simp
  | cons p rest ih =>
    intro srv s acc qid hfin hqid hidx hsrv hcont hzero
    have hp : srv s.served = p := by
      have := hsrv 0 p (by simp)
      rwa [Nat.add_zero] at this
    have hcontp : ConnectApi.pageContinues s.arraysize (srv s.served) := by
      rw [hp]
      exact hcont p (List.mem_cons_self p rest)
    have hfetch := ConnectApi.fetchMoreData_continues srv s qid hfin hqid hcontp
    have hstep : ConnectApi.fetchallLoop srv ((p :: rest).length + 1) s acc =
        ConnectApi.fetchallLoop srv (rest.length + 1)
          { s with served := s.served + 1,
                   rowsBuffer := s.rowsBuffer ++ dataToTuples s.description (srv s.served).data,
                   nextOffset := s.nextOffset + (srv s.served).returned,
                   rowIndex := (s.rowsBuffer ++
                     dataToTuples s.description (srv s.served).data).length }
          (acc ++ dataToTuples s.description (srv s.served).data) := by
      rw [show (p :: rest).length + 1 = (rest.length + 1) + 1 by simp]
      rw [ConnectApi.fetchallLoop]
      simp only [hfin, Bool.false_eq_true, if_false, hfetch]
      congr 1
      rw [hidx]
      simp [List.drop_left]
    obtain ⟨s2, hloop, hfin2, hserved2⟩ := ih srv
      { s with served := s.served + 1,
               rowsBuffer := s.rowsBuffer ++ dataToTuples s.description (srv s.served).data,
               nextOffset := s.nextOffset + (srv s.served).returned,
               rowIndex := (s.rowsBuffer ++ dataToTuples s.description (srv s.served).data).length }
      (acc ++ dataToTuples s.description (srv s.served).data) qid hfin hqid rfl
      (by
        intro j p2 hj
        have := hsrv (j + 1) p2 (by simpa using hj)
        simpa [Nat.add_assoc, Nat.add_comm 1 j] using this)
      (fun p2 hp2 => hcont p2 (List.mem_cons_of_mem p hp2))
      (by simpa [Nat.add_assoc, Nat.add_comm 1 rest.length] using hzero)
    refine ⟨s2, ?_, hfin2, ?_⟩
    · rw [hstep, hloop, hp]
      simp [List.append_assoc]
    · simp only [hserved2]
      simp [List.length_cons]
      omega

/-- C1, counterexample: in the legacy cursor, a batch fetch whose response
has zero rows but a `done = false` flag does not mark the cursor finished
(`has_next` stays true), and `fetchall` keeps fetching — after 5 fuel units
against a server that always answers with such batches the loop is still
running — so a zero-row page does not end pagination there. -/
theorem claim1_counterexample :
    (Legacy.applyBatchFetchall
        { description := none, data := some [], hasNext := some true, nextBatchId := some "b1",
          closed := false, connClosed := false, hasResult := true, served := 0 }
        { data := [], description := [], hasNext := true, nextBatchId := some "b2" }).hasNext
      = some true ∧
    ({ data := [], description := [], hasNext := true, nextBatchId := some "b2" }
      : Legacy.BatchResult).data = [] ∧
    Legacy.fetchall
        (fun _ => { data := [], description := [], hasNext := true, nextBatchId := some "b2" }) 5
        { description := none, data := some [], hasNext := some true, nextBatchId := some "b1",
          closed := false, connClosed := false, hasResult := true, served := 0 }
      = none := by
  exact ⟨rfl, rfl, rfl⟩

/-- C1 (amended): in the Connect API cursor, an internal page fetch whose
response contains zero rows marks the cursor finished and ends pagination
even when the continuation signals claim more data exists, and a `fetchall`
over a run of continuing pages ended by a zero-row page terminates with
exactly the rows of the non-empty pages; the legacy cursor instead ends
pagination solely on the batch's done flag, so a zero-row batch with
`done = false` leaves it unfinished. -/
theorem claim1_zero_row_page :
    (∀ (srv : Nat → ConnectApi.PageResponse) (s : ConnectApi.CState) (qid : String),
      s.queryFinished = false → s.queryId = some qid →
      ((srv s.served).data.length = 0 ∨ (srv s.served).returned = 0) →
      ConnectApi.fetchMoreData srv s = Except.ok (false,
        { s with served := s.served + 1, queryFinished := true,
                 rowcount := (s.rowIndex : Int) + (s.rowsBuffer.length : Int) })) ∧
    (∀ (pages : List ConnectApi.PageResponse) (srv : Nat → ConnectApi.PageResponse)
        (s : ConnectApi.CState) (qid : String),
      s.queryFinished = false → s.queryId = some qid → s.isClosed = false →
      (∀ (j : Nat) (p : ConnectApi.PageResponse), pages[j]? = some p → srv (s.served + j) = p) →
      (∀ p ∈ pages, ConnectApi.pageContinues s.arraysize p) →
      (srv (s.served + pages.length)).data.length = 0 →
      ∃ s2 : ConnectApi.CState,
        ConnectApi.fetchall srv (pages.length + 1) s =
          some (Except.ok (s.rowsBuffer.drop s.rowIndex ++
            (pages.map fun p => dataToTuples s.description p.data).flatten, s2)) ∧
        s2.queryFinished = true ∧ s2.served = s.served + pages.length + 1) ∧
    (∀ (s : Legacy.LState) (r : Legacy.BatchResult),
      r.data = [] → r.hasNext = true →
      (Legacy.applyBatchFetchall s r).hasNext = some true ∧
      (Legacy.applyBatchFetchall s r).data = some (s.data.getD [])) := by
  refine ⟨?_, ?_, ?_⟩
  · intro srv s qid hfin hqid hz
    exact ConnectApi.fetchMoreData_zero srv s qid hfin hqid hz
  · intro pages srv s qid hfin hqid hclosed hsrv hcont hzero
    have hqid2 : ¬ s.queryId = none := by
      rw [hqid]
      simp
    have hcc : ConnectApi.checkClosed s = Except.ok () := by
      simp [ConnectApi.checkClosed, hclosed]
    rw [ConnectApi.fetchall, if_neg hqid2]
    simp only [hcc]
    obtain ⟨s2, hloop, hfin2, hserved2⟩ := fetchallLoop_stops_on_zero_page pages srv
      { s with rowIndex := s.rowsBuffer.length } (s.rowsBuffer.drop s.rowIndex) qid
      hfin hqid rfl hsrv hcont hzero
    exact ⟨s2, by simpa using hloop, hfin2, by simpa using hserved2⟩
  · intro s r hd hn
    constructor
    · simp [Legacy.applyBatchFetchall, hn]
    · simp [Legacy.applyBatchFetchall, hd]

/-- Witness for C1: two 2-row pages followed by a zero-row page whose
signals still claim more data (`nextOffset = 4`, `totalRows = 100`):
`fetchall` with just enough fuel terminates with the 4 rows of the non-empty
pages, finished, after exactly 3 page requests. -/
theorem claim1_witness :
    ∃ s2 : ConnectApi.CState,
      ConnectApi.fetchall
          (fun n =>
            if n = 0 then
              { data := PageData.positional [[Value.int 1], [Value.int 2]],
                returnedRows := none, totalRows := none, nextOffset := some 0 }
            else if n = 1 then
              { data := PageData.positional [[Value.int 3], [Value.int 4]],
                returnedRows := none, totalRows := none, nextOffset := some 0 }
            else
              { data := PageData.positional [], returnedRows := some 7,
                totalRows := some 100, nextOffset := some 4 })
          3
          { queryId := some "q", description := none, rowsBuffer := [], rowIndex := 0,
            nextOffset := 0, queryFinished := false, rowcount := -1, arraysize := 2,
            isClosed := false, served := 0 } =
        some (Except.ok
          ([[Value.int 1], [Value.int 2], [Value.int 3], [Value.int 4]], s2)) ∧
      s2.queryFinished = true ∧ s2.served = 3 := by
  obtain ⟨s2, h1, h2, h3⟩ := claim1_zero_row_page.2.1
    [{ data := PageData.positional [[Value.int 1], [Value.int 2]],
       returnedRows := none, totalRows := none, nextOffset := some 0 },
     { data := PageData.positional [[Value.int 3], [Value.int 4]],
       returnedRows := none, totalRows := none, nextOffset := some 0 }]
    (fun n =>
      if n = 0 then
        { data := PageData.positional [[Value.int 1], [Value.int 2]],
          returnedRows := none, totalRows := none, nextOffset := some 0 }
      else if n = 1 then
        { data := PageData.positional [[Value.int 3], [Value.int 4]],
          returnedRows := none, totalRows := none, nextOffset := some 0 }
      else
        { data := PageData.positional [], returnedRows := some 7,
          totalRows := some 100, nextOffset := some 4 })
    { queryId := some "q", description := none, rowsBuffer := [], rowIndex := 0,
      nextOffset := 0, queryFinished := false, rowcount := -1, arraysize := 2,
      isClosed := false, served := 0 }
    "q" rfl rfl rfl
    (by
      intro j p hj
      cases j with
      | zero =>
        simp only [List.getElem?_cons_zero, Option.some.injEq] at hj
        subst hj
        rfl
      | succ j1 =>
        cases j1 with
        | zero =>
          simp only [List.getElem?_cons_succ, List.getElem?_cons_zero,
            Option.some.injEq] at hj
          subst hj
          rfl
        | succ j2 => simp at hj)
    (by decide)
    rfl
  exact ⟨s2, h1, h2, h3⟩

/-- An index that reads `some` is in bounds. -/
theorem getElem?_some_lt {α : Type} (l : List α) (i : Nat) (a : α) (h : l[i]? = some a) :
    i < l.length := by
  by_contra hc
  rw [List.getElem?_eq_none (by omega)] at h
  exact Option.noConfusion h

namespace AuthConc

/-- Writing a non-done phase, or a phase that only finishes with the
refreshed token, preserves the per-thread facts of the invariant. -/
theorem mutex_set (th : List TPc) (i : Nat) (pc : TPc) (owner2 : Option Nat)
    (hilen : i < th.length)
    (hself : pc.holdsLock = true → owner2 = some i)
    (hother : ∀ (j : Nat) (pcj : TPc), j ≠ i → th[j]? = some pcj → pcj.holdsLock = true →
      owner2 = some j) :
    ∀ (j : Nat) (pcj : TPc), (th.set i pc)[j]? = some pcj → pcj.holdsLock = true →
      owner2 = some j := by
  intro j pcj hj hlock
  by_cases hij : j = i
  · subst hij
    rw [List.getElem?_set_self hilen] at hj
    rw [← Option.some.inj hj] at hlock
    exact hself hlock
  · rw [List.getElem?_set_ne (fun h => hij h.symm)] at hj
    exact hother j pcj hij hj hlock

/-- Setting a non-done phase preserves "nobody is done". -/
theorem nodone_set (th : List TPc) (i : Nat) (pc : TPc) (hpc : pc.isDone = false)
    (h : ∀ (j : Nat) (pcj : TPc), th[j]? = some pcj → pcj.isDone = false) :
    ∀ (j : Nat) (pcj : TPc), (th.set i pc)[j]? = some pcj → pcj.isDone = false := by
  intro j pcj hj
  by_cases hij : j = i
  · subst hij
    by_cases hlt : j < th.length
    · rw [List.getElem?_set_self hlt] at hj
      rw [← Option.some.inj hj]
      exact hpc
    · rw [List.set_eq_of_length_le (by omega)] at hj
      exact h j pcj hj
  · rw [List.getElem?_set_ne (fun hh => hij hh.symm)] at hj
    exact h j pcj hj

/-- Setting a non-refreshing phase preserves "nobody is refreshing". -/
theorem norefresh_set (th : List TPc) (i : Nat) (pc : TPc) (hpc : pc ≠ TPc.refreshing)
    (h : ∀ j : Nat, th[j]? ≠ some TPc.refreshing) :
    ∀ j : Nat, (th.set i pc)[j]? ≠ some TPc.refreshing := by
  intro j hj
  by_cases hij : j = i
  · subst hij
    by_cases hlt : j < th.length
    · rw [List.getElem?_set_self hlt] at hj
      exact hpc (Option.some.inj hj)
    · rw [List.set_eq_of_length_le (by omega)] at hj
      exact h j hj
  · rw [List.getElem?_set_ne (fun hh => hij hh.symm)] at hj
    exact h j hj

/-- Setting a phase that is either not done or done with the refreshed token
preserves "every finished caller returned the refreshed token". -/
theorem doneres_set (th : List TPc) (i : Nat) (pc : TPc) (newTok : String)
    (hpc : ∀ tok : String, pc = TPc.done tok → tok = newTok)
    (h : ∀ (j : Nat) (tok : String), th[j]? = some (TPc.done tok) → tok = newTok) :
    ∀ (j : Nat) (tok : String), (th.set i pc)[j]? = some (TPc.done tok) → tok = newTok := by
  intro j tok hj
  by_cases hij : j = i
  · subst hij
    by_cases hlt : j < th.length
    · rw [List.getElem?_set_self hlt] at hj
      exact hpc tok (Option.some.inj hj)
    · rw [List.set_eq_of_length_le (by omega)] at hj
      exact h j tok hj
  · rw [List.getElem?_set_ne (fun hh => hij hh.symm)] at hj
    exact h j tok hj

end AuthConc

namespace AuthConc

/-- The invariant holds in the initial configuration. -/
theorem inv_init (now : Nat) (newTok : String) (ttl : Nat) (tok : Option String)
    (exp : Option Nat) (n : Nat) :
    Inv now newTok ttl tok exp n (initConfig tok exp n) := by
  refine ⟨by simp [initConfig], ?_, Or.inl ⟨rfl, rfl, rfl, ?_⟩⟩
  · intro i pc hth hlock
    simp only [initConfig] at hth
    rw [List.getElem?_replicate] at hth
    by_cases hin : i < n
    · simp only [hin, if_pos] at hth
      rw [← Option.some.inj hth] at hlock
      exact absurd hlock (by simp [TPc.holdsLock])
    · simp [hin] at hth
  · intro i pc hth
    simp only [initConfig] at hth
    rw [List.getElem?_replicate] at hth
    by_cases hin : i < n
    · simp only [hin, if_pos] at hth
      rw [← Option.some.inj hth]
      rfl
    · simp [hin] at hth

/-- Every step preserves the invariant, provided the initial session is
invalid at the fixed current time and the refreshed session has a positive
time-to-live. -/
theorem inv_step (now : Nat) (newTok : String) (ttl : Nat) (initTok : Option String)
    (initExp : Option Nat) (n : Nat) (httl : 0 < ttl)
    (hinit : sessionValid initTok initExp now = false)
    {c c' : Config} (hstep : Step now newTok ttl c c')
    (hinv : Inv now newTok ttl initTok initExp n c) :
    Inv now newTok ttl initTok initExp n c' := by
  obtain ⟨hlen, hmutex, hbranch⟩ := hinv
  cases hstep with
  | outerHit i tok hth hvalid htok =>
    have hilen : i < c.th.length := getElem?_some_lt _ _ _ hth
    rcases hbranch with ⟨hnc, htokA, hexpA, hnodone⟩ | ⟨hnc, htokB, hexpB, hnoref, hdone⟩
    · rw [validAt, htokA, hexpA, hinit] at hvalid
      exact absurd hvalid (by simp)
    · have htokeq : tok = newTok := by
        rw [htokB] at htok
        exact (Option.some.inj htok).symm
      refine ⟨by simpa using hlen,
        mutex_set c.th i (TPc.done tok) c.owner hilen (by intro hl; simp [TPc.holdsLock] at hl)
          (fun j pcj _ hj hl => hmutex j pcj hj hl),
        Or.inr ⟨hnc, htokB, hexpB,
          norefresh_set c.th i (TPc.done tok) (by simp) hnoref,
          doneres_set c.th i (TPc.done tok) newTok
            (by intro t ht; rw [TPc.done.injEq] at ht; rw [← ht]; exact htokeq) hdone⟩⟩
  | outerMiss i hth hvalid =>
    have hilen : i < c.th.length := getElem?_some_lt _ _ _ hth
    refine ⟨by simpa using hlen,
      mutex_set c.th i TPc.waiting c.owner hilen (by intro hl; simp [TPc.holdsLock] at hl)
        (fun j pcj _ hj hl => hmutex j pcj hj hl), ?_⟩
    rcases hbranch with ⟨hnc, htokA, hexpA, hnodone⟩ | ⟨hnc, htokB, hexpB, hnoref, hdone⟩
    · exact Or.inl ⟨hnc, htokA, hexpA, nodone_set c.th i TPc.waiting rfl hnodone⟩
    · exact Or.inr ⟨hnc, htokB, hexpB,
        norefresh_set c.th i TPc.waiting (by simp) hnoref,
        doneres_set c.th i TPc.waiting newTok (by intro t ht; cases ht) hdone⟩
  | acquire i hth howner =>
    have hilen : i < c.th.length := getElem?_some_lt _ _ _ hth
    refine ⟨by simpa using hlen,
      mutex_set c.th i TPc.locked (some i) hilen (fun _ => rfl)
        (fun j pcj _ hj hl => absurd (howner ▸ hmutex j pcj hj hl) (by simp)), ?_⟩
    rcases hbranch with ⟨hnc, htokA, hexpA, hnodone⟩ | ⟨hnc, htokB, hexpB, hnoref, hdone⟩
    · exact Or.inl ⟨hnc, htokA, hexpA, nodone_set c.th i TPc.locked rfl hnodone⟩
    · exact Or.inr ⟨hnc, htokB, hexpB,
        norefresh_set c.th i TPc.locked (by simp) hnoref,
        doneres_set c.th i TPc.locked newTok (by intro t ht; cases ht) hdone⟩
  | innerHit i tok hth hvalid htok =>
    have hilen : i < c.th.length := getElem?_some_lt _ _ _ hth
    have howneri : c.owner = some i := hmutex i TPc.locked hth rfl
    rcases hbranch with ⟨hnc, htokA, hexpA, hnodone⟩ | ⟨hnc, htokB, hexpB, hnoref, hdone⟩
    · rw [validAt, htokA, hexpA, hinit] at hvalid
      exact absurd hvalid (by simp)
    · have htokeq : tok = newTok := by
        rw [htokB] at htok
        exact (Option.some.inj htok).symm
      refine ⟨by simpa using hlen,
        mutex_set c.th i (TPc.done tok) none hilen (by intro hl; simp [TPc.holdsLock] at hl)
          (fun j pcj hij hj hl => by
            have := hmutex j pcj hj hl
            rw [howneri] at this
            exact absurd (Option.some.inj this).symm hij),
        Or.inr ⟨hnc, htokB, hexpB,
          norefresh_set c.th i (TPc.done tok) (by simp) hnoref,
          doneres_set c.th i (TPc.done tok) newTok
            (by intro t ht; rw [TPc.done.injEq] at ht; rw [← ht]; exact htokeq) hdone⟩⟩
  | innerMiss i hth hvalid =>
    have hilen : i < c.th.length := getElem?_some_lt _ _ _ hth
    have howneri : c.owner = some i := hmutex i TPc.locked hth rfl
    rcases hbranch with ⟨hnc, htokA, hexpA, hnodone⟩ | ⟨hnc, htokB, hexpB, hnoref, hdone⟩
    · refine ⟨by simpa using hlen,
        mutex_set c.th i TPc.refreshing c.owner hilen (fun _ => howneri)
          (fun j pcj _ hj hl => hmutex j pcj hj hl),
        Or.inl ⟨hnc, htokA, hexpA, nodone_set c.th i TPc.refreshing rfl hnodone⟩⟩
    · rw [validAt, htokB, hexpB] at hvalid
      simp only [sessionValid] at hvalid
      rw [decide_eq_false_iff_not] at hvalid
      omega
  | refresh i hth =>
    have hilen : i < c.th.length := getElem?_some_lt _ _ _ hth
    have howneri : c.owner = some i := hmutex i TPc.refreshing hth rfl
    rcases hbranch with ⟨hnc, htokA, hexpA, hnodone⟩ | ⟨hnc, htokB, hexpB, hnoref, hdone⟩
    · refine ⟨by simpa using hlen,
        mutex_set c.th i (TPc.done newTok) none hilen
          (by intro hl; simp [TPc.holdsLock] at hl)
          (fun j pcj hij hj hl => by
            have := hmutex j pcj hj hl
            rw [howneri] at this
            exact absurd (Option.some.inj this).symm hij),
        Or.inr ⟨by simp [hnc], rfl, rfl,
          (by
            intro j hj
            by_cases hij : j = i
            · subst hij
              rw [List.getElem?_set_self hilen] at hj
              simp at hj
            · rw [List.getElem?_set_ne (fun hh => hij hh.symm)] at hj
              have hlock := hmutex j TPc.refreshing hj rfl
              rw [howneri] at hlock
              exact hij (Option.some.inj hlock).symm),
          doneres_set c.th i (TPc.done newTok) newTok
            (by intro t ht; exact (TPc.done.injEq _ _ ▸ ht).symm) ?_⟩⟩
      · intro j tok hj
        have := hnodone j (TPc.done tok) hj
        simp [TPc.isDone] at this
    · exact absurd hth (hnoref i)

end AuthConc

/-- The invariant holds in every reachable configuration. -/
theorem AuthConc.inv_reachable (now : Nat) (newTok : String) (ttl : Nat)
    (tok : Option String) (exp : Option Nat) (n : Nat) (httl : 0 < ttl)
    (hinit : AuthConc.sessionValid tok exp now = false)
    {c : AuthConc.Config}
    (hreach : AuthConc.Reaches now newTok ttl (AuthConc.initConfig tok exp n) c) :
    AuthConc.Inv now newTok ttl tok exp n c := by
  induction hreach with
  | refl => exact AuthConc.inv_init now newTok ttl tok exp n
  | tail hsteps hstep ih =>
    exact AuthConc.inv_step now newTok ttl tok exp n httl hinit hstep ih

/-- C10 (confirmed): starting from an expired or missing session, any number
of concurrent `get_token` callers — interleaved arbitrarily, serialized on
the one lock with a re-check of validity under it — produce exactly one
authentication network round-trip once all of them have returned, every
caller returns the refreshed token, and the refreshed session is in place. -/
theorem claim10_single_refresh (now : Nat) (newTok : String) (ttl : Nat)
    (tok : Option String) (exp : Option Nat) (n : Nat) (c : AuthConc.Config)
    (httl : 0 < ttl) (hn : 0 < n)
    (hinvalid : AuthConc.sessionValid tok exp now = false)
    (hreach : AuthConc.Reaches now newTok ttl (AuthConc.initConfig tok exp n) c)
    (hdone : ∀ (i : Nat) (pc : AuthConc.TPc), c.th[i]? = some pc → pc.isDone = true) :
    c.netCount = 1 ∧
    (∀ (i : Nat) (tok2 : String), c.th[i]? = some (AuthConc.TPc.done tok2) → tok2 = newTok) ∧
    AuthConc.validAt c now = true := by
  obtain ⟨hlen, hmutex, hbranch⟩ :=
    AuthConc.inv_reachable now newTok ttl tok exp n httl hinvalid hreach
  rcases hbranch with ⟨hnc, htokA, hexpA, hnodone⟩ | ⟨hnc, htokB, hexpB, hnoref, hdoneres⟩
  · have h0 : 0 < c.th.length := by omega
    obtain ⟨pc0, hpc0⟩ : ∃ pc0, c.th[0]? = some pc0 := by
      rw [List.getElem?_eq_getElem h0]
      exact ⟨_, rfl⟩
    have := hnodone 0 pc0 hpc0
    rw [hdone 0 pc0 hpc0] at this
    exact Bool.noConfusion this
  · refine ⟨hnc, hdoneres, ?_⟩
    rw [AuthConc.validAt, htokB, hexpB]
    simp [AuthConc.sessionValid]
    omega

/-- Witness for C10: an explicit interleaving of two callers against a
missing session — both miss the outer check, the first takes the lock,
re-checks, refreshes (the single network call), then the second takes the
lock and hits the re-check, returning the refreshed token from cache. -/
theorem claim10_witness :
    ∃ c : AuthConc.Config,
      AuthConc.Reaches 0 "T" 5 (AuthConc.initConfig none none 2) c ∧
      (∀ (i : Nat) (pc : AuthConc.TPc), c.th[i]? = some pc → pc.isDone = true) ∧
      c.netCount = 1 ∧
      (∀ (i : Nat) (tok2 : String), c.th[i]? = some (AuthConc.TPc.done tok2) → tok2 = "T") ∧
      AuthConc.validAt c 0 = true := by
  have h01 : AuthConc.Step 0 "T" 5 (AuthConc.initConfig none none 2)
      { token := none, expiry := none, owner := none, netCount := 0,
        th := [AuthConc.TPc.waiting, AuthConc.TPc.start] } :=
    AuthConc.Step.outerMiss _ 0 rfl rfl
  have h12 : AuthConc.Step 0 "T" 5
      { token := none, expiry := none, owner := none, netCount := 0,
        th := [AuthConc.TPc.waiting, AuthConc.TPc.start] }
      { token := none, expiry := none, owner := none, netCount := 0,
        th := [AuthConc.TPc.waiting, AuthConc.TPc.waiting] } :=
    AuthConc.Step.outerMiss _ 1 rfl rfl
  have h23 : AuthConc.Step 0 "T" 5
      { token := none, expiry := none, owner := none, netCount := 0,
        th := [AuthConc.TPc.waiting, AuthConc.TPc.waiting] }
      { token := none, expiry := none, owner := some 0, netCount := 0,
        th := [AuthConc.TPc.locked, AuthConc.TPc.waiting] } :=
    AuthConc.Step.acquire _ 0 rfl rfl
  have h34 : AuthConc.Step 0 "T" 5
      { token := none, expiry := none, owner := some 0, netCount := 0,
        th := [AuthConc.TPc.locked, AuthConc.TPc.waiting] }
      { token := none, expiry := none, owner := some 0, netCount := 0,
        th := [AuthConc.TPc.refreshing, AuthConc.TPc.waiting] } :=
    AuthConc.Step.innerMiss _ 0 rfl rfl
  have h45 : AuthConc.Step 0 "T" 5
      { token := none, expiry := none, owner := some 0, netCount := 0,
        th := [AuthConc.TPc.refreshing, AuthConc.TPc.waiting] }
      { token := some "T", expiry := some 5, owner := none, netCount := 1,
        th := [AuthConc.TPc.done "T", AuthConc.TPc.waiting] } :=
    AuthConc.Step.refresh _ 0 rfl
  have h56 : AuthConc.Step 0 "T" 5
      { token := some "T", expiry := some 5, owner := none, netCount := 1,
        th := [AuthConc.TPc.done "T", AuthConc.TPc.waiting] }
      { token := some "T", expiry := some 5, owner := some 1, netCount := 1,
        th := [AuthConc.TPc.done "T", AuthConc.TPc.locked] } :=
    AuthConc.Step.acquire _ 1 rfl rfl
  have h67 : AuthConc.Step 0 "T" 5
      { token := some "T", expiry := some 5, owner := some 1, netCount := 1,
        th := [AuthConc.TPc.done "T", AuthConc.TPc.locked] }
      { token := some "T", expiry := some 5, owner := none, netCount := 1,
        th := [AuthConc.TPc.done "T", AuthConc.TPc.done "T"] } :=
    AuthConc.Step.innerHit _ 1 "T" rfl rfl rfl
  have hreach : AuthConc.Reaches 0 "T" 5 (AuthConc.initConfig none none 2)
      { token := some "T", expiry := some 5, owner := none, netCount := 1,
        th := [AuthConc.TPc.done "T", AuthConc.TPc.done "T"] } :=
    Relation.ReflTransGen.head h01 (Relation.ReflTransGen.head h12
      (Relation.ReflTransGen.head h23 (Relation.ReflTransGen.head h34
        (Relation.ReflTransGen.head h45 (Relation.ReflTransGen.head h56
          (Relation.ReflTransGen.head h67 Relation.ReflTransGen.refl))))))
  have hdone : ∀ (i : Nat) (pc : AuthConc.TPc),
      ({ token := some "T", expiry := some 5, owner := none, netCount := 1,
         th := [AuthConc.TPc.done "T", AuthConc.TPc.done "T"] } : AuthConc.Config).th[i]?
        = some pc → pc.isDone = true := by
    intro i pc h
    cases i with
    | zero =>
      simp only [List.getElem?_cons_zero, Option.some.injEq] at h
      rw [← h]
      rfl
    | succ i1 =>
      cases i1 with
      | zero =>
        simp only [List.getElem?_cons_succ, List.getElem?_cons_zero, Option.some.injEq] at h
        rw [← h]
        rfl
      | succ i2 => simp at h
  have hmain := claim10_single_refresh 0 "T" 5 none none 2
    { token := some "T", expiry := some 5, owner := none, netCount := 1,
      th := [AuthConc.TPc.done "T", AuthConc.TPc.done "T"] }
    (by decide) (by decide) rfl hreach hdone
  exact ⟨{ token := some "T", expiry := some 5, owner := none, netCount := 1,
           th := [AuthConc.TPc.done "T", AuthConc.TPc.done "T"] },
    hreach, hdone, hmain.1, hmain.2.1, hmain.2.2⟩
